import Mathlib

/-!
# PZ: the command-line drivers `pf`, `mcmc`, `kfb`, `simulate` and `predict`

A shallow embedding of the five `main` functions of `src/*.cpp`.

Conventions of the embedding.

* A value of `real` (the library's floating-point type) or of `double` is the
  rational number it stands for, an element of `ℚ`.  Arithmetic that the
  drivers do themselves is rounded: a `double` operation is the exact operation
  followed by `roundDouble` (IEEE 754 binary64, round to nearest, ties to even),
  and the conversion of a `double` to `real`, whose width is the library's
  choice, is the field `toReal` of `Lib`.  Arithmetic inside library routines
  (`matrix_scal`, the filter, the sampler) is exact.  The initial values of
  the option variables are the literals of the source taken exactly; the
  drivers pass them on or compare them with zero, and do no arithmetic on them.
* `int` is `Int`; `atoi` is given for values that fit an `int`.
* The option loop `do { c = getopt_long(..); switch (c) {..} } while (c != -1)`
  is a left fold of the `switch` over the results that `getopt_long` returns
  before `-1`.  A result is the returned code and the value of `optarg`.
* The library `bi` (buffers, priors, random numbers, filter, sampler, smoother,
  simulator) is not part of the drivers.  What the drivers need from it is the
  record `Lib`.  The library calls that initialise, allocate, seed, open, read,
  sample, construct or run something are also logged, in program order, as
  `Call`s.  A library call is taken to return.
* The reading of the wall clock (`timer.toc()`) is an argument of the drivers
  that print it.
-/

namespace PZ

/-! ## libc -/

/-- The `isspace` of the C locale: blank and the characters 9 to 13. -/
def isspace (c : Char) : Bool :=
  c = ' ' || (9 ≤ c.toNat && c.toNat ≤ 13)

/-- Decimal digits of `atoi`, most significant first, up to the first non-digit. -/
def atoiDigits : List Char → Int → Int
  | [], acc => acc
  | c :: cs, acc =>
    if c.isDigit then atoiDigits cs (acc * 10 + ((c.toNat - 48 : Nat) : Int)) else acc

/-- The `atoi` of libc: leading white space, an optional sign, decimal digits. -/
def atoi (s : String) : Int :=
  match s.toList.dropWhile isspace with
  | '-' :: cs => - atoiDigits cs 0
  | '+' :: cs => atoiDigits cs 0
  | cs => atoiDigits cs 0

/-- The C conversion of an `int` to `bool`, as in `OUTPUT = atoi(optarg)`. -/
def intToBool (n : Int) : Bool := n != 0

/-- One result of `getopt_long`: the code it returns and `optarg`
(`none` is `NULL`, which only an `optional_argument` option can leave). -/
structure GetoptResult where
  c : Int
  optarg : Option String
  deriving DecidableEq, Repr

/-- The string `std::string(optarg)` of an option declared `required_argument`. -/
def GetoptResult.arg (r : GetoptResult) : String := r.optarg.getD ""

/-- The code `getopt_long` returns for a short option character. -/
def shortOpt (ch : Char) : Int := (ch.toNat : Int)

/-! ## Library types seen by the drivers -/

/-- The library type `real`. -/
abbrev real := ℚ

/-- The integer nearest to a rational, the even one of the two at a tie. -/
def roundHalfEven (q : ℚ) : Int :=
  if q - ⌊q⌋ < 1 / 2 then ⌊q⌋
  else if 1 / 2 < q - ⌊q⌋ then ⌊q⌋ + 1
  else if ⌊q⌋ % 2 = 0 then ⌊q⌋ else ⌊q⌋ + 1

/-- The `double` nearest to a rational: IEEE 754 binary64 with round to nearest,
ties to even.  With `e` the binary exponent of `x` (`2 ^ e ≤ |x| < 2 ^ (e + 1)`)
the result is the multiple of `2 ^ (e - 52)` nearest to `x`, so that it has 53
significant bits.  The exponent range is not bounded: overflow and subnormal
numbers are outside the values the drivers compute themselves. -/
def roundDouble (x : ℚ) : ℚ :=
  if x = 0 then 0
  else (roundHalfEven (x / 2 ^ (Int.log 2 |x| - 52)) : ℚ) * 2 ^ (Int.log 2 |x| - 52)

/-- Node types of the model that the drivers name. -/
inductive NodeType
  | D_NODE
  | C_NODE
  | P_NODE
  deriving DecidableEq, Repr

/-- Handling of the static parameters (`STATIC_SHARED`, `STATIC_OWN`). -/
inductive StaticHandling
  | STATIC_SHARED
  | STATIC_OWN
  deriving DecidableEq, Repr

/-- The resampler classes whose headers `pf.cpp` includes. -/
inductive Resampler
  | StratifiedResampler
  | MultinomialResampler
  | MetropolisResampler
  | ExactStratifiedResampler
  deriving DecidableEq, Repr

/-- Matrices as the drivers index them. -/
abbrev Mat := Nat → Nat → ℚ

/-- The library routine `matrix_scal(a, X)`: `X ← a X`. -/
def matrix_scal (a : ℚ) (X : Mat) : Mat := fun i j => a * X i j

/-- The assignment `subrange(X, i0, rows, j0, cols) = subrange(Y, k0, rows, l0, cols)`. -/
def assignSubrange (X : Mat) (i0 rows j0 cols : Nat) (Y : Mat) (k0 l0 : Nat) : Mat :=
  fun i j =>
    if i0 ≤ i ∧ i < i0 + rows ∧ j0 ≤ j ∧ j < j0 + cols then Y (k0 + (i - i0)) (l0 + (j - j0))
    else X i j

/-- The dynamic and collapsed parts of a `State<LOCATION>` (`s.get(D_NODE)`,
`s.get(C_NODE)`). -/
structure State (Buf : Type) where
  D : Buf
  C : Buf

/-- The kinds of NetCDF buffer the drivers open. -/
inductive BufferKind
  | SparseInputNetCDFBuffer
  | ParticleFilterNetCDFBuffer
  | ParticleMCMCNetCDFBuffer
  | ParticleSmootherNetCDFBuffer
  | SimulatorNetCDFBuffer
  | UnscentedRTSSmootherNetCDFBuffer
  deriving DecidableEq, Repr

/-- An output buffer `new XNetCDFBuffer(m, P, T, file, NetCDFBuffer::REPLACE, mode)`;
`mode = none` when the constructor is called without a static-handling argument. -/
structure OutBuffer where
  kind : BufferKind
  size1 : Int
  size2 : Int
  file : String
  mode : Option StaticHandling
  deriving DecidableEq, Repr

/-- What the drivers use of the library and of the model.  `Buf` is the content
of a state or parameter buffer, `Rng` the state of a `Random`. -/
structure Lib (Buf Rng : Type) where
  /-- The `atof` of libc followed by the conversion to `real`, as in
  `SD = atof(optarg)`. -/
  atof : String → ℚ
  /-- The conversion of a `double` to `real` (the identity when `real` is
  `double`, a rounding to single precision when it is `float`). -/
  toReal : ℚ → ℚ
  /-- The model sizes `m.getNetSize(node)` (sizes, so not negative). -/
  getNetSize : NodeType → Nat
  /-- Content of `theta.get(P_NODE)` after `Static<LOCATION> theta(m, rows)`
  (`none`: the one-argument constructor `theta(m)`). -/
  newStatic : Option Int → Buf
  /-- Content of `s.get(node)` after `State<LOCATION> s(m, rows)`. -/
  newState : Int → NodeType → Buf
  /-- The generator `Random rng(seed)`. -/
  newRandom : Int → Rng
  /-- The call `SparseInputNetCDFBuffer(m, file, ns).read(node, buf)`. -/
  read : String → Int → NodeType → Buf → Buf
  /-- The call `m.getPrior<node>().samples(rng, buf)`. -/
  samples : NodeType → Rng → Buf → Buf × Rng
  /-- The call `SparseInputNetCDFBuffer(m, file, ns).countUniqueTimes(T)`. -/
  countUniqueTimes : String → Int → ℚ → Int
  /-- The sizes `size1()`, `size2()` of a buffer opened for reading on a file. -/
  size1 : String → Int
  size2 : String → Int
  /-- The call `inSimulate.readState(node, k, buf)` on the simulation file. -/
  readState : String → NodeType → Int → Buf → Buf
  /-- The loop of `inSimulate.readSingle(P_NODE, p, 0, row(theta, p))`, `p < n`. -/
  readSingles : String → Int → Buf → Buf
  /-- The call `inSimulate.readTime(k, t)`. -/
  readTime : String → Int → ℚ
  /-- The size `mcmc->getPrior().size()`. -/
  priorSize : Nat
  /-- The covariance `m.getPrior(node).cov()`. -/
  priorCov : NodeType → Mat
  /-- Content of `q.cov()` after `AdditiveExpGaussianPdf<> q(n)`. -/
  newCov : Nat → Mat
  /-- The covariance that `inProposal.readSmoothState(0, p1.mean(), p1.cov())`
  stores in `p1.cov()`, for the named proposal file. -/
  readSmoothCov : String → Mat
  /-- The calls `p0.sample(rng, x)` (`none`) and `p1.sample(rng, x)` (`some file`). -/
  pdfSample : Option String → Rng → Buf × Rng

/-- A library call, as logged in program order.  `openInput` is the opening of a
buffer for reading (`ns` is 0 for the buffers whose constructor takes none),
`openOutput` the creation of a buffer with `NetCDFBuffer::REPLACE`, `create` the
call of a factory with its static handling, `run` the call of `filter`,
`sample`, `smooth` or `simulate`, and `print` the output to `std::cout`. -/
inductive Call
  | bi_ode_init (H ATOLER RTOLER : ℚ)
  | newStatic (rows : Option Int)
  | newState (rows : Int)
  | newRandom (seed : Int)
  | openInput (kind : BufferKind) (file : String) (ns : Int) (mode : Option StaticHandling)
  | openOutput (b : OutBuffer)
  | read (file : String) (node : NodeType)
  | readState (file : String) (node : NodeType)
  | samples (node : NodeType)
  | pdfSample (proposalFile : Option String)
  | countUniqueTimes (file : String) (T : ℚ)
  | newResampler (k : Resampler)
  | create (mode : Option StaticHandling)
  | run
  | print
  deriving DecidableEq, Repr

/-! ## `pf.cpp` -/

namespace pf

/-! The anonymous `enum` of the long-option codes. -/
abbrev ATOLER_ARG : Int := 0
abbrev RTOLER_ARG : Int := 1
abbrev INIT_NS_ARG : Int := 2
abbrev FORCE_NS_ARG : Int := 3
abbrev OBS_NS_ARG : Int := 4
abbrev SEED_ARG : Int := 5
abbrev INIT_FILE_ARG : Int := 6
abbrev FORCE_FILE_ARG : Int := 7
abbrev OBS_FILE_ARG : Int := 8
abbrev OUTPUT_FILE_ARG : Int := 9
abbrev RESAMPLER_ARG : Int := 10
abbrev OUTPUT_ARG : Int := 11
abbrev TIME_ARG : Int := 12
abbrev INCLUDE_PARAMETERS_ARG : Int := 13

/-- The option variables of `main`. -/
structure Opts where
  T : ℚ
  H : ℚ
  RTOLER : ℚ
  ATOLER : ℚ
  P : Int
  L : Int
  INIT_NS : Int
  FORCE_NS : Int
  OBS_NS : Int
  SEED : Int
  INIT_FILE : String
  FORCE_FILE : String
  OBS_FILE : String
  OUTPUT_FILE : String
  RESAMPLER : String
  OUTPUT : Bool
  TIME : Bool
  INCLUDE_PARAMETERS : Bool
  deriving DecidableEq, Repr

/-- The initial values of the option variables. -/
def defaults : Opts :=
  { T := 0.0, H := 1.0, RTOLER := 1.0e-3, ATOLER := 1.0e-3,
    P := 1024, L := 10, INIT_NS := 0, FORCE_NS := 0, OBS_NS := 0, SEED := 0,
    INIT_FILE := "", FORCE_FILE := "", OBS_FILE := "", OUTPUT_FILE := "",
    RESAMPLER := "stratified",
    OUTPUT := false, TIME := false, INCLUDE_PARAMETERS := false }

/-- The `switch (c)` of the option loop. -/
def step (atof : String → ℚ) (o : Opts) (r : GetoptResult) : Opts :=
  if r.c = ATOLER_ARG then { o with ATOLER := atof r.arg }
  else if r.c = RTOLER_ARG then { o with RTOLER := atof r.arg }
  else if r.c = INIT_NS_ARG then { o with INIT_NS := atoi r.arg }
  else if r.c = FORCE_NS_ARG then { o with FORCE_NS := atoi r.arg }
  else if r.c = OBS_NS_ARG then { o with OBS_NS := atoi r.arg }
  else if r.c = SEED_ARG then { o with SEED := atoi r.arg }
  else if r.c = INIT_FILE_ARG then { o with INIT_FILE := r.arg }
  else if r.c = FORCE_FILE_ARG then { o with FORCE_FILE := r.arg }
  else if r.c = OBS_FILE_ARG then { o with OBS_FILE := r.arg }
  else if r.c = OUTPUT_FILE_ARG then { o with OUTPUT_FILE := r.arg }
  else if r.c = RESAMPLER_ARG then { o with RESAMPLER := r.arg }
  else if r.c = OUTPUT_ARG then { o with OUTPUT := intToBool (atoi r.arg) }
  else if r.c = TIME_ARG then { o with TIME := intToBool (atoi r.arg) }
  else if r.c = INCLUDE_PARAMETERS_ARG then
    { o with INCLUDE_PARAMETERS := intToBool (atoi r.arg) }
  else if r.c = shortOpt 'T' then { o with T := atof r.arg }
  else if r.c = shortOpt 'h' then { o with H := atof r.arg }
  else if r.c = shortOpt 'P' then { o with P := atoi r.arg }
  else if r.c = shortOpt 'L' then { o with L := atoi r.arg }
  else o

/-- The option loop. -/
def parse (atof : String → ℚ) (rs : List GetoptResult) : Opts :=
  rs.foldl (step atof) defaults

/-- The static handling chosen by `INCLUDE_PARAMETERS ? STATIC_OWN : STATIC_SHARED`
and by the two branches of `if (INCLUDE_PARAMETERS)`. -/
def modeOf (o : Opts) : StaticHandling :=
  if o.INCLUDE_PARAMETERS then .STATIC_OWN else .STATIC_SHARED

/-- The rows of `Static<LOCATION> theta(m, INCLUDE_PARAMETERS ? P : 1)`. -/
def thetaRows (o : Opts) : Int := if o.INCLUDE_PARAMETERS then o.P else 1

/-- The resampler `main` constructs: `StratifiedResampler resam(rng);`. -/
def resam (_o : Opts) : Resampler := .StratifiedResampler

/-- The arguments of `ParticleFilterFactory<LOCATION,mode>::create(m, rng, inForce,
&inObs, out)` and of `filter->filter(T, theta, s, &resam)`. -/
structure FilterCall (Buf Rng : Type) where
  mode : StaticHandling
  rng : Rng
  inForce : Option (String × Int)
  inObs : String × Int
  out : Option OutBuffer
  T : ℚ
  theta : Buf
  s : State Buf
  resam : Resampler

/-- A run of `main`: the library calls in program order, the filter call, what
is written to standard output, and the value returned. -/
structure Run (Buf Rng : Type) where
  calls : List Call
  thetaRows : Int
  stateRows : Int
  filter : FilterCall Buf Rng
  stdout : List ℚ
  exit : Int

variable {Buf Rng : Type}

/-- The content of `theta.get(P_NODE)` when the filter is called. -/
def thetaAtFilter (lib : Lib Buf Rng) (o : Opts) : Buf :=
  let theta := lib.newStatic (some (thetaRows o))
  let rng := lib.newRandom o.SEED
  if o.INIT_FILE ≠ "" then lib.read o.INIT_FILE o.INIT_NS .P_NODE theta
  else
    let d := lib.samples .D_NODE rng (lib.newState o.P .D_NODE)
    let c := lib.samples .C_NODE d.2 (lib.newState o.P .C_NODE)
    if o.INCLUDE_PARAMETERS then (lib.samples .P_NODE c.2 theta).1 else theta

/-- The content of `s` when the filter is called. -/
def stateAtFilter (lib : Lib Buf Rng) (o : Opts) : State Buf :=
  let rng := lib.newRandom o.SEED
  if o.INIT_FILE ≠ "" then
    { D := lib.read o.INIT_FILE o.INIT_NS .D_NODE (lib.newState o.P .D_NODE),
      C := lib.read o.INIT_FILE o.INIT_NS .C_NODE (lib.newState o.P .C_NODE) }
  else
    let d := lib.samples .D_NODE rng (lib.newState o.P .D_NODE)
    let c := lib.samples .C_NODE d.2 (lib.newState o.P .C_NODE)
    { D := d.1, C := c.1 }

/-- The state of `rng` when the filter is called. -/
def rngAtFilter (lib : Lib Buf Rng) (o : Opts) : Rng :=
  let rng := lib.newRandom o.SEED
  if o.INIT_FILE ≠ "" then rng
  else
    let d := lib.samples .D_NODE rng (lib.newState o.P .D_NODE)
    let c := lib.samples .C_NODE d.2 (lib.newState o.P .C_NODE)
    if o.INCLUDE_PARAMETERS then
      (lib.samples .P_NODE c.2 (lib.newStatic (some (thetaRows o)))).2
    else c.2

/-- The output buffer `out`. -/
def outBuffer (lib : Lib Buf Rng) (o : Opts) : Option OutBuffer :=
  if o.OUTPUT then
    some { kind := .ParticleFilterNetCDFBuffer, size1 := o.P,
           size2 := lib.countUniqueTimes o.OBS_FILE o.OBS_NS o.T,
           file := o.OUTPUT_FILE, mode := some (modeOf o) }
  else none

/-- The library calls of `main`, in program order. -/
def calls (lib : Lib Buf Rng) (o : Opts) : List Call :=
  [ .bi_ode_init o.H o.ATOLER o.RTOLER,
    .newStatic (some (thetaRows o)),
    .newState o.P,
    .newRandom o.SEED,
    .openInput .SparseInputNetCDFBuffer o.OBS_FILE o.OBS_NS none ]
  ++ (if o.FORCE_FILE ≠ "" then
        [.openInput .SparseInputNetCDFBuffer o.FORCE_FILE o.FORCE_NS none] else [])
  ++ (if o.INIT_FILE ≠ "" then
        [ .openInput .SparseInputNetCDFBuffer o.INIT_FILE o.INIT_NS none,
          .read o.INIT_FILE .P_NODE, .read o.INIT_FILE .D_NODE, .read o.INIT_FILE .C_NODE ]
      else
        [.samples .D_NODE, .samples .C_NODE]
        ++ (if o.INCLUDE_PARAMETERS then [.samples .P_NODE] else []))
  ++ (match outBuffer lib o with
      | some b => [.countUniqueTimes o.OBS_FILE o.T, .openOutput b]
      | none => [])
  ++ [ .newResampler (resam o), .create (some (modeOf o)), .run ]
  ++ (if o.TIME then [.print] else [])

/-- The driver `main` of `pf.cpp`.  `elapsed` is the reading `timer.toc()` of
the wall clock. -/
def main (lib : Lib Buf Rng) (rs : List GetoptResult) (elapsed : ℚ) : Run Buf Rng :=
  let o := parse lib.atof rs
  { calls := calls lib o,
    thetaRows := thetaRows o,
    stateRows := o.P,
    filter :=
      { mode := modeOf o,
        rng := rngAtFilter lib o,
        inForce := if o.FORCE_FILE ≠ "" then some (o.FORCE_FILE, o.FORCE_NS) else none,
        inObs := (o.OBS_FILE, o.OBS_NS),
        out := outBuffer lib o,
        T := o.T,
        theta := thetaAtFilter lib o,
        s := stateAtFilter lib o,
        resam := resam o },
    stdout := if o.TIME then [elapsed] else [],
    exit := 0 }

end pf

/-! ## `mcmc.cpp` -/

namespace mcmc

/-! The anonymous `enum` of the long-option codes. -/
abbrev ID_ARG : Int := 0
abbrev ATOLER_ARG : Int := 1
abbrev RTOLER_ARG : Int := 2
abbrev SCALE_ARG : Int := 3
abbrev SD_ARG : Int := 4
abbrev INIT_NS_ARG : Int := 5
abbrev FORCE_NS_ARG : Int := 6
abbrev OBS_NS_ARG : Int := 7
abbrev SEED_ARG : Int := 8
abbrev INIT_FILE_ARG : Int := 9
abbrev FORCE_FILE_ARG : Int := 10
abbrev OBS_FILE_ARG : Int := 11
abbrev OUTPUT_FILE_ARG : Int := 12
abbrev FILTER_FILE_ARG : Int := 13
abbrev PROPOSAL_FILE_ARG : Int := 14
abbrev RESAMPLER_ARG : Int := 15

/-- The option variables of `main`. -/
structure Opts where
  T : ℚ
  H : ℚ
  RTOLER : ℚ
  ATOLER : ℚ
  SCALE : ℚ
  SD : ℚ
  ID : Int
  P : Int
  L : Int
  INIT_NS : Int
  FORCE_NS : Int
  OBS_NS : Int
  SEED : Int
  C : Int
  A : Int
  INIT_FILE : String
  FORCE_FILE : String
  OBS_FILE : String
  FILTER_FILE : String
  OUTPUT_FILE : String
  PROPOSAL_FILE : String
  RESAMPLER : String
  deriving DecidableEq, Repr

/-- The initial values of the option variables. -/
def defaults : Opts :=
  { T := 0.0, H := 1.0, RTOLER := 1.0e-3, ATOLER := 1.0e-3, SCALE := 0.01, SD := 0.0,
    ID := 0, P := 1024, L := 10, INIT_NS := 0, FORCE_NS := 0, OBS_NS := 0,
    SEED := 0, C := 100, A := 1000,
    INIT_FILE := "", FORCE_FILE := "", OBS_FILE := "", FILTER_FILE := "",
    OUTPUT_FILE := "", PROPOSAL_FILE := "", RESAMPLER := "stratified" }

/-- The `switch (c)` of the option loop. -/
def step (atof : String → ℚ) (o : Opts) (r : GetoptResult) : Opts :=
  if r.c = ID_ARG then { o with ID := atoi r.arg }
  else if r.c = ATOLER_ARG then { o with ATOLER := atof r.arg }
  else if r.c = RTOLER_ARG then { o with RTOLER := atof r.arg }
  else if r.c = SD_ARG then { o with SD := atof r.arg }
  else if r.c = SCALE_ARG then { o with SCALE := atof r.arg }
  else if r.c = INIT_NS_ARG then { o with INIT_NS := atoi r.arg }
  else if r.c = FORCE_NS_ARG then { o with FORCE_NS := atoi r.arg }
  else if r.c = OBS_NS_ARG then { o with OBS_NS := atoi r.arg }
  else if r.c = SEED_ARG then { o with SEED := atoi r.arg }
  else if r.c = INIT_FILE_ARG then
    match r.optarg with
    | some a => { o with INIT_FILE := a }
    | none => o
  else if r.c = FORCE_FILE_ARG then { o with FORCE_FILE := r.arg }
  else if r.c = OBS_FILE_ARG then { o with OBS_FILE := r.arg }
  else if r.c = OUTPUT_FILE_ARG then { o with OUTPUT_FILE := r.arg }
  else if r.c = FILTER_FILE_ARG then { o with FILTER_FILE := r.arg }
  else if r.c = PROPOSAL_FILE_ARG then
    match r.optarg with
    | some a => { o with PROPOSAL_FILE := a }
    | none => o
  else if r.c = RESAMPLER_ARG then { o with RESAMPLER := r.arg }
  else if r.c = shortOpt 'T' then { o with T := atof r.arg }
  else if r.c = shortOpt 'h' then { o with H := atof r.arg }
  else if r.c = shortOpt 'P' then { o with P := atoi r.arg }
  else if r.c = shortOpt 'L' then { o with L := atoi r.arg }
  else if r.c = shortOpt 'C' then { o with C := atoi r.arg }
  else if r.c = shortOpt 'A' then { o with A := atoi r.arg }
  else o

/-- The option loop. -/
def parse (atof : String → ℚ) (rs : List GetoptResult) : Opts :=
  rs.foldl (step atof) defaults

/-- The value of the `double` expression `2.4*2.4/NP`: the two literals, their
product and the quotient by `NP` (an `int`, converted exactly) are each rounded
to `double`. -/
def defaultSD (NP : Nat) : ℚ :=
  roundDouble (roundDouble (roundDouble 2.4 * roundDouble 2.4) / (NP : ℚ))

/-- The value of `SD` after `if (SD <= 0.0) { SD = 2.4*2.4/NP; }`. -/
def sdOf (toReal : ℚ → ℚ) (NP : Nat) (o : Opts) : ℚ :=
  if o.SD ≤ 0.0 then toReal (defaultSD NP) else o.SD

/-- The resampler `main` constructs: `StratifiedResampler resam(rng);`. -/
def resam (_o : Opts) : Resampler := .StratifiedResampler

/-- The content of `q.cov()` after the three `subrange` assignments of the
branch "construct from scaled prior". -/
def priorBlocks {Buf Rng : Type} (lib : Lib Buf Rng) : Mat :=
  let NP := lib.getNetSize .P_NODE
  let ND := lib.getNetSize .D_NODE
  let NC := lib.getNetSize .C_NODE
  let q0 := lib.newCov lib.priorSize
  let q1 := assignSubrange q0 0 ND 0 ND (lib.priorCov .D_NODE) 0 0
  let q2 := assignSubrange q1 ND NC ND NC (lib.priorCov .C_NODE) ND ND
  assignSubrange q2 (ND + NC) NP (ND + NC) NP (lib.priorCov .P_NODE) (ND + NC) (ND + NC)

/-- The content of `q.cov()` when `q.init()` is called.  The calls `addLogs`,
`init` and `sample` of the library are taken to leave `cov()` as it is. -/
def proposalCov {Buf Rng : Type} (lib : Lib Buf Rng) (o : Opts) : Mat :=
  if o.PROPOSAL_FILE ≠ "" then
    matrix_scal (sdOf lib.toReal (lib.getNetSize .P_NODE) o)
      (lib.readSmoothCov o.PROPOSAL_FILE)
  else
    matrix_scal o.SCALE (priorBlocks lib)

/-- The arguments of `ParticleFilterFactory<LOCATION>::create(m, rng, inForce,
&inObs, &outFilter)`. -/
structure FilterArgs where
  inForce : Option (String × Int)
  inObs : String × Int
  outFilter : OutBuffer
  deriving DecidableEq, Repr

/-- The arguments of `mcmc->sample(q, x, C, T, theta, s, filter, &resam, SD, A)`,
with the sampler's output buffer `out` and the state of `rng` at the call. -/
structure SampleCall (Buf Rng : Type) where
  out : OutBuffer
  rng : Rng
  qCov : Mat
  x : Buf
  C : Int
  T : ℚ
  theta : Buf
  s : State Buf
  filter : FilterArgs
  resam : Resampler
  SD : ℚ
  A : Int

/-- A run of `main` up to the call of the sampler. -/
structure Run (Buf Rng : Type) where
  calls : List Call
  sample : SampleCall Buf Rng
  exit : Int

variable {Buf Rng : Type}

/-- The name of the proposal file, when one is given. -/
def proposalFile (o : Opts) : Option String :=
  if o.PROPOSAL_FILE ≠ "" then some o.PROPOSAL_FILE else none

/-- The buffer `ParticleMCMCNetCDFBuffer out(m, C, Y, OUTPUT_FILE, REPLACE)`. -/
def outBuffer (lib : Lib Buf Rng) (o : Opts) : OutBuffer :=
  { kind := .ParticleMCMCNetCDFBuffer, size1 := o.C,
    size2 := lib.countUniqueTimes o.OBS_FILE o.OBS_NS o.T,
    file := o.OUTPUT_FILE, mode := none }

/-- The buffer `ParticleFilterNetCDFBuffer outFilter(m, P, Y, FILTER_FILE, REPLACE)`. -/
def outFilter (lib : Lib Buf Rng) (o : Opts) : OutBuffer :=
  { kind := .ParticleFilterNetCDFBuffer, size1 := o.P,
    size2 := lib.countUniqueTimes o.OBS_FILE o.OBS_NS o.T,
    file := o.FILTER_FILE, mode := none }

/-- The library calls of `main`, in program order, up to the sampler and the
final print. -/
def calls (lib : Lib Buf Rng) (o : Opts) : List Call :=
  [ .bi_ode_init o.H o.ATOLER o.RTOLER,
    .newRandom o.SEED,
    .newStatic none,
    .newState o.P ]
  ++ (if o.FORCE_FILE ≠ "" then
        [.openInput .SparseInputNetCDFBuffer o.FORCE_FILE o.FORCE_NS none] else [])
  ++ (if o.INIT_FILE ≠ "" then
        [ .openInput .SparseInputNetCDFBuffer o.INIT_FILE o.INIT_NS none,
          .read o.INIT_FILE .P_NODE ]
      else [])
  ++ [ .openInput .SparseInputNetCDFBuffer o.OBS_FILE o.OBS_NS none,
       .countUniqueTimes o.OBS_FILE o.T,
       .openOutput (outBuffer lib o),
       .openOutput (outFilter lib o),
       .newResampler (resam o),
       .create none,
       .create none ]
  ++ (if o.PROPOSAL_FILE ≠ "" then
        [ .openInput .UnscentedRTSSmootherNetCDFBuffer o.PROPOSAL_FILE 0 (some .STATIC_OWN),
          .pdfSample (some o.PROPOSAL_FILE) ]
      else [.pdfSample none])
  ++ [ .run, .print ]

/-- The driver `main` of `mcmc.cpp`. -/
def main (lib : Lib Buf Rng) (rs : List GetoptResult) : Run Buf Rng :=
  let o := parse lib.atof rs
  let rng := lib.newRandom o.SEED
  let theta := lib.newStatic none
  let x := lib.pdfSample (proposalFile o) rng
  { calls := calls lib o,
    sample :=
      { out := outBuffer lib o,
        rng := x.2,
        qCov := proposalCov lib o,
        x := x.1,
        C := o.C,
        T := o.T,
        theta := if o.INIT_FILE ≠ "" then lib.read o.INIT_FILE o.INIT_NS .P_NODE theta
                 else theta,
        s := { D := lib.newState o.P .D_NODE, C := lib.newState o.P .C_NODE },
        filter :=
          { inForce := if o.FORCE_FILE ≠ "" then some (o.FORCE_FILE, o.FORCE_NS) else none,
            inObs := (o.OBS_FILE, o.OBS_NS),
            outFilter := outFilter lib o },
        resam := resam o,
        SD := sdOf lib.toReal (lib.getNetSize .P_NODE) o,
        A := o.A },
    exit := 0 }

end mcmc

/-! ## `kfb.cpp` -/

namespace kfb

/-! The anonymous `enum` of the long-option codes. -/
abbrev ATOLER_ARG : Int := 0
abbrev RTOLER_ARG : Int := 1
abbrev FORCE_NS_ARG : Int := 2
abbrev SEED_ARG : Int := 3
abbrev INPUT_FILE_ARG : Int := 4
abbrev FORCE_FILE_ARG : Int := 5
abbrev OUTPUT_FILE_ARG : Int := 6
abbrev OUTPUT_ARG : Int := 7
abbrev TIME_ARG : Int := 8
abbrev INCLUDE_PARAMETERS_ARG : Int := 9

/-- The option variables of `main`. -/
structure Opts where
  H : ℚ
  RTOLER : ℚ
  ATOLER : ℚ
  FORCE_NS : Int
  SEED : Int
  B : ℚ
  INPUT_FILE : String
  FORCE_FILE : String
  OUTPUT_FILE : String
  OUTPUT : Bool
  TIME : Bool
  INCLUDE_PARAMETERS : Bool
  deriving DecidableEq, Repr

/-- The initial values of the option variables.  `real B;` has no initialiser:
`B0` is the value the variable happens to hold. -/
def defaults (B0 : ℚ) : Opts :=
  { H := 1.0, RTOLER := 1.0e-3, ATOLER := 1.0e-3, FORCE_NS := 0, SEED := 0, B := B0,
    INPUT_FILE := "", FORCE_FILE := "", OUTPUT_FILE := "",
    OUTPUT := false, TIME := false, INCLUDE_PARAMETERS := false }

/-- The `switch (c)` of the option loop (it has no case for `FORCE_FILE_ARG`). -/
def step (atof : String → ℚ) (o : Opts) (r : GetoptResult) : Opts :=
  if r.c = ATOLER_ARG then { o with ATOLER := atof r.arg }
  else if r.c = RTOLER_ARG then { o with RTOLER := atof r.arg }
  else if r.c = FORCE_NS_ARG then { o with FORCE_NS := atoi r.arg }
  else if r.c = SEED_ARG then { o with SEED := atoi r.arg }
  else if r.c = INPUT_FILE_ARG then { o with INPUT_FILE := r.arg }
  else if r.c = OUTPUT_FILE_ARG then { o with OUTPUT_FILE := r.arg }
  else if r.c = OUTPUT_ARG then { o with OUTPUT := intToBool (atoi r.arg) }
  else if r.c = TIME_ARG then { o with TIME := intToBool (atoi r.arg) }
  else if r.c = INCLUDE_PARAMETERS_ARG then
    { o with INCLUDE_PARAMETERS := intToBool (atoi r.arg) }
  else if r.c = shortOpt 'h' then { o with H := atof r.arg }
  else if r.c = shortOpt 'b' then { o with B := atof r.arg }
  else o

/-- The option loop. -/
def parse (atof : String → ℚ) (B0 : ℚ) (rs : List GetoptResult) : Opts :=
  rs.foldl (step atof) (defaults B0)

/-- The static handling chosen by `INCLUDE_PARAMETERS ? STATIC_OWN : STATIC_SHARED`
and by the two branches of `if (INCLUDE_PARAMETERS)`. -/
def modeOf (o : Opts) : StaticHandling :=
  if o.INCLUDE_PARAMETERS then .STATIC_OWN else .STATIC_SHARED

/-- The kernel dimension `N = ND + NC + (INCLUDE_PARAMETERS ? NP : 0)`. -/
def kernelSize {Buf Rng : Type} (lib : Lib Buf Rng) (o : Opts) : Nat :=
  lib.getNetSize .D_NODE + lib.getNetSize .C_NODE
    + (if o.INCLUDE_PARAMETERS then lib.getNetSize .P_NODE else 0)

/-- The arguments of `KernelForwardBackwardSmootherFactory<LOCATION,mode>::create(m,
rng, K, partitioner, inForce, out)` and of `smoother->smooth(theta, s, &in, &resam)`,
with `FastGaussianKernel K(N, B)`. -/
structure SmoothCall (Buf Rng : Type) where
  mode : StaticHandling
  rng : Rng
  kernelN : Nat
  kernelB : ℚ
  inForce : Option (String × Int)
  out : Option OutBuffer
  theta : Buf
  s : State Buf
  input : String × StaticHandling
  resam : Resampler

/-- A run of `main`. -/
structure Run (Buf Rng : Type) where
  calls : List Call
  thetaRows : Int
  stateRows : Int
  smooth : SmoothCall Buf Rng
  stdout : List ℚ
  exit : Int

variable {Buf Rng : Type}

/-- The rows of `Static<LOCATION> theta(m, INCLUDE_PARAMETERS ? P : 1)`, with
`P = in.size1()`. -/
def thetaRows (lib : Lib Buf Rng) (o : Opts) : Int :=
  if o.INCLUDE_PARAMETERS then lib.size1 o.INPUT_FILE else 1

/-- The output buffer `out`. -/
def outBuffer (lib : Lib Buf Rng) (o : Opts) : Option OutBuffer :=
  if o.OUTPUT then
    some { kind := .ParticleSmootherNetCDFBuffer, size1 := lib.size1 o.INPUT_FILE,
           size2 := lib.size2 o.INPUT_FILE, file := o.OUTPUT_FILE, mode := some (modeOf o) }
  else none

/-- The library calls of `main`, in program order. -/
def calls (lib : Lib Buf Rng) (o : Opts) : List Call :=
  [ .bi_ode_init o.H o.ATOLER o.RTOLER,
    .newRandom o.SEED,
    .openInput .ParticleFilterNetCDFBuffer o.INPUT_FILE 0 (some (modeOf o)) ]
  ++ (if o.FORCE_FILE ≠ "" then
        [.openInput .SparseInputNetCDFBuffer o.FORCE_FILE o.FORCE_NS none] else [])
  ++ [ .newStatic (some (thetaRows lib o)), .newState (lib.size1 o.INPUT_FILE) ]
  ++ (match outBuffer lib o with
      | some b => [.openOutput b]
      | none => [])
  ++ [ .newResampler .StratifiedResampler, .create (some (modeOf o)), .run ]
  ++ (if o.TIME then [.print] else [])

/-- The driver `main` of `kfb.cpp`.  `elapsed` is the reading `timer.toc()`. -/
def main (lib : Lib Buf Rng) (B0 : ℚ) (rs : List GetoptResult) (elapsed : ℚ) :
    Run Buf Rng :=
  let o := parse lib.atof B0 rs
  let P := lib.size1 o.INPUT_FILE
  { calls := calls lib o,
    thetaRows := thetaRows lib o,
    stateRows := P,
    smooth :=
      { mode := modeOf o,
        rng := lib.newRandom o.SEED,
        kernelN := kernelSize lib o,
        kernelB := o.B,
        inForce := if o.FORCE_FILE ≠ "" then some (o.FORCE_FILE, o.FORCE_NS) else none,
        out := outBuffer lib o,
        theta := lib.newStatic (some (thetaRows lib o)),
        s := { D := lib.newState P .D_NODE, C := lib.newState P .C_NODE },
        input := (o.INPUT_FILE, modeOf o),
        resam := .StratifiedResampler },
    stdout := if o.TIME then [elapsed] else [],
    exit := 0 }

end kfb

/-! ## `simulate.cpp` and `predict.cpp` -/

/-- The arguments of `SimulatorFactory<LOCATION,mode>::create(m, &rUpdater, inForce,
out)` and of `sim->simulate(T, theta, s)`, with `RUpdater rUpdater(rng)`;
`setTime` is the argument of `sim->setTime(t)` when that call is made. -/
structure SimulateCall (Buf Rng : Type) where
  mode : StaticHandling
  rng : Rng
  inForce : Option (String × Int)
  out : Option OutBuffer
  setTime : Option ℚ
  T : ℚ
  theta : Buf
  s : State Buf

/-- A run of the `main` of `simulate.cpp` or of `predict.cpp`. -/
structure SimulateRun (Buf Rng : Type) where
  calls : List Call
  thetaRows : Int
  stateRows : Int
  simulate : SimulateCall Buf Rng
  stdout : List ℚ
  exit : Int

namespace simulate

/-! The anonymous `enum` of the long-option codes. -/
abbrev ATOLER_ARG : Int := 0
abbrev RTOLER_ARG : Int := 1
abbrev INIT_NS_ARG : Int := 2
abbrev FORCE_NS_ARG : Int := 3
abbrev SEED_ARG : Int := 4
abbrev INIT_FILE_ARG : Int := 5
abbrev FORCE_FILE_ARG : Int := 6
abbrev OUTPUT_FILE_ARG : Int := 7
abbrev OUTPUT_ARG : Int := 8
abbrev TIME_ARG : Int := 9
abbrev INCLUDE_PARAMETERS_ARG : Int := 10

/-- The option variables of `main`. -/
structure Opts where
  T : ℚ
  H : ℚ
  RTOLER : ℚ
  ATOLER : ℚ
  P : Int
  K : Int
  INIT_NS : Int
  FORCE_NS : Int
  SEED : Int
  INIT_FILE : String
  FORCE_FILE : String
  OUTPUT_FILE : String
  OUTPUT : Bool
  TIME : Bool
  INCLUDE_PARAMETERS : Bool
  deriving DecidableEq, Repr

/-- The initial values of the option variables. -/
def defaults : Opts :=
  { T := 0.0, H := 1.0, RTOLER := 1.0e-3, ATOLER := 1.0e-3,
    P := 0, K := 0, INIT_NS := 0, FORCE_NS := 0, SEED := 0,
    INIT_FILE := "", FORCE_FILE := "", OUTPUT_FILE := "",
    OUTPUT := false, TIME := false, INCLUDE_PARAMETERS := false }

/-- The `switch (c)` of the option loop. -/
def step (atof : String → ℚ) (o : Opts) (r : GetoptResult) : Opts :=
  if r.c = ATOLER_ARG then { o with ATOLER := atof r.arg }
  else if r.c = RTOLER_ARG then { o with RTOLER := atof r.arg }
  else if r.c = INIT_NS_ARG then { o with INIT_NS := atoi r.arg }
  else if r.c = FORCE_NS_ARG then { o with FORCE_NS := atoi r.arg }
  else if r.c = SEED_ARG then { o with SEED := atoi r.arg }
  else if r.c = INIT_FILE_ARG then { o with INIT_FILE := r.arg }
  else if r.c = FORCE_FILE_ARG then { o with FORCE_FILE := r.arg }
  else if r.c = OUTPUT_FILE_ARG then { o with OUTPUT_FILE := r.arg }
  else if r.c = OUTPUT_ARG then { o with OUTPUT := intToBool (atoi r.arg) }
  else if r.c = TIME_ARG then { o with TIME := intToBool (atoi r.arg) }
  else if r.c = INCLUDE_PARAMETERS_ARG then
    { o with INCLUDE_PARAMETERS := intToBool (atoi r.arg) }
  else if r.c = shortOpt 'T' then { o with T := atof r.arg }
  else if r.c = shortOpt 'P' then { o with P := atoi r.arg }
  else if r.c = shortOpt 'K' then { o with K := atoi r.arg }
  else if r.c = shortOpt 'h' then { o with H := atof r.arg }
  else o

/-- The option loop. -/
def parse (atof : String → ℚ) (rs : List GetoptResult) : Opts :=
  rs.foldl (step atof) defaults

/-- The static handling chosen by `INCLUDE_PARAMETERS ? STATIC_OWN : STATIC_SHARED`
and by the two branches of `if (INCLUDE_PARAMETERS)`. -/
def modeOf (o : Opts) : StaticHandling :=
  if o.INCLUDE_PARAMETERS then .STATIC_OWN else .STATIC_SHARED

/-- The rows of `Static<LOCATION> theta(m, INCLUDE_PARAMETERS ? P : 1)`. -/
def thetaRows (o : Opts) : Int := if o.INCLUDE_PARAMETERS then o.P else 1

/-- The output buffer `out`. -/
def outBuffer (o : Opts) : Option OutBuffer :=
  if o.OUTPUT ∧ o.OUTPUT_FILE ≠ "" then
    some { kind := .SimulatorNetCDFBuffer, size1 := o.P, size2 := o.K,
           file := o.OUTPUT_FILE, mode := some (modeOf o) }
  else none

variable {Buf Rng : Type}

/-- The content of `s.get(node)` after the block "inputs". -/
def stateAfterInputs (lib : Lib Buf Rng) (o : Opts) (node : NodeType) : Buf :=
  if o.INIT_FILE ≠ "" then lib.read o.INIT_FILE o.INIT_NS node (lib.newState o.P node)
  else lib.newState o.P node

/-- The content of `theta.get(P_NODE)` after the block "inputs". -/
def thetaAfterInputs (lib : Lib Buf Rng) (o : Opts) : Buf :=
  if o.INIT_FILE ≠ "" then
    lib.read o.INIT_FILE o.INIT_NS .P_NODE (lib.newStatic (some (thetaRows o)))
  else lib.newStatic (some (thetaRows o))

/-- The library calls of `main`, in program order. -/
def calls (o : Opts) : List Call :=
  [ .bi_ode_init o.H o.ATOLER o.RTOLER,
    .newRandom o.SEED,
    .newStatic (some (thetaRows o)),
    .newState o.P ]
  ++ (if o.FORCE_FILE ≠ "" then
        [.openInput .SparseInputNetCDFBuffer o.FORCE_FILE o.FORCE_NS none] else [])
  ++ (if o.INIT_FILE ≠ "" then
        [ .openInput .SparseInputNetCDFBuffer o.INIT_FILE o.INIT_NS none,
          .read o.INIT_FILE .P_NODE, .read o.INIT_FILE .D_NODE, .read o.INIT_FILE .C_NODE ]
      else [])
  ++ (match outBuffer o with
      | some b => [.openOutput b]
      | none => [])
  ++ [.samples .D_NODE, .samples .C_NODE]
  ++ (if o.INCLUDE_PARAMETERS then [.samples .P_NODE] else [])
  ++ [ .create (some (modeOf o)), .run ]
  ++ (if o.TIME then [.print] else [])

/-- The driver `main` of `simulate.cpp`.  `elapsed` is the reading `timer.toc()`. -/
def main (lib : Lib Buf Rng) (rs : List GetoptResult) (elapsed : ℚ) :
    SimulateRun Buf Rng :=
  let o := parse lib.atof rs
  let rng := lib.newRandom o.SEED
  let d := lib.samples .D_NODE rng (stateAfterInputs lib o .D_NODE)
  let c := lib.samples .C_NODE d.2 (stateAfterInputs lib o .C_NODE)
  let p := lib.samples .P_NODE c.2 (thetaAfterInputs lib o)
  { calls := calls o,
    thetaRows := thetaRows o,
    stateRows := o.P,
    simulate :=
      { mode := modeOf o,
        rng := if o.INCLUDE_PARAMETERS then p.2 else c.2,
        inForce := if o.FORCE_FILE ≠ "" then some (o.FORCE_FILE, o.FORCE_NS) else none,
        out := outBuffer o,
        setTime := none,
        T := o.T,
        theta := if o.INCLUDE_PARAMETERS then p.1 else thetaAfterInputs lib o,
        s := { D := d.1, C := c.1 } },
    stdout := if o.TIME then [elapsed] else [],
    exit := 0 }

end simulate

namespace predict

/-! The anonymous `enum` of the long-option codes. -/
abbrev ATOLER_ARG : Int := 0
abbrev RTOLER_ARG : Int := 1
abbrev INIT_NS_ARG : Int := 2
abbrev FORCE_NS_ARG : Int := 3
abbrev SEED_ARG : Int := 4
abbrev INIT_FILE_ARG : Int := 5
abbrev FORCE_FILE_ARG : Int := 6
abbrev SIMULATE_FILE_ARG : Int := 7
abbrev OUTPUT_FILE_ARG : Int := 8
abbrev OUTPUT_ARG : Int := 9
abbrev TIME_ARG : Int := 10
abbrev INCLUDE_PARAMETERS_ARG : Int := 11

/-- The option variables of `main` (`P` is set later, from the simulation file). -/
structure Opts where
  U : ℚ
  H : ℚ
  RTOLER : ℚ
  ATOLER : ℚ
  K : Int
  INIT_NS : Int
  FORCE_NS : Int
  SEED : Int
  INIT_FILE : String
  FORCE_FILE : String
  SIMULATE_FILE : String
  OUTPUT_FILE : String
  OUTPUT : Bool
  TIME : Bool
  INCLUDE_PARAMETERS : Bool
  deriving DecidableEq, Repr

/-- The initial values of the option variables. -/
def defaults : Opts :=
  { U := 0.0, H := 1.0, RTOLER := 1.0e-3, ATOLER := 1.0e-3,
    K := 0, INIT_NS := 0, FORCE_NS := 0, SEED := 0,
    INIT_FILE := "", FORCE_FILE := "", SIMULATE_FILE := "", OUTPUT_FILE := "",
    OUTPUT := false, TIME := false, INCLUDE_PARAMETERS := false }

/-- The `switch (c)` of the option loop. -/
def step (atof : String → ℚ) (o : Opts) (r : GetoptResult) : Opts :=
  if r.c = ATOLER_ARG then { o with ATOLER := atof r.arg }
  else if r.c = RTOLER_ARG then { o with RTOLER := atof r.arg }
  else if r.c = INIT_NS_ARG then { o with INIT_NS := atoi r.arg }
  else if r.c = FORCE_NS_ARG then { o with FORCE_NS := atoi r.arg }
  else if r.c = SEED_ARG then { o with SEED := atoi r.arg }
  else if r.c = INIT_FILE_ARG then { o with INIT_FILE := r.arg }
  else if r.c = FORCE_FILE_ARG then { o with FORCE_FILE := r.arg }
  else if r.c = SIMULATE_FILE_ARG then { o with SIMULATE_FILE := r.arg }
  else if r.c = OUTPUT_FILE_ARG then { o with OUTPUT_FILE := r.arg }
  else if r.c = OUTPUT_ARG then { o with OUTPUT := intToBool (atoi r.arg) }
  else if r.c = TIME_ARG then { o with TIME := intToBool (atoi r.arg) }
  else if r.c = INCLUDE_PARAMETERS_ARG then
    { o with INCLUDE_PARAMETERS := intToBool (atoi r.arg) }
  else if r.c = shortOpt 'U' then { o with U := atof r.arg }
  else if r.c = shortOpt 'K' then { o with K := atoi r.arg }
  else if r.c = shortOpt 'h' then { o with H := atof r.arg }
  else o

/-- The option loop. -/
def parse (atof : String → ℚ) (rs : List GetoptResult) : Opts :=
  rs.foldl (step atof) defaults

/-- The static handling chosen by `INCLUDE_PARAMETERS ? STATIC_OWN : STATIC_SHARED`
and by the two branches of `if (INCLUDE_PARAMETERS)`. -/
def modeOf (o : Opts) : StaticHandling :=
  if o.INCLUDE_PARAMETERS then .STATIC_OWN else .STATIC_SHARED

variable {Buf Rng : Type}

/-- The rows of `Static<LOCATION> theta(m, INCLUDE_PARAMETERS ? P : 1)`, with
`P = inSimulate.size1()`. -/
def thetaRows (lib : Lib Buf Rng) (o : Opts) : Int :=
  if o.INCLUDE_PARAMETERS then lib.size1 o.SIMULATE_FILE else 1

/-- The output buffer `out`. -/
def outBuffer (lib : Lib Buf Rng) (o : Opts) : Option OutBuffer :=
  if o.OUTPUT ∧ o.OUTPUT_FILE ≠ "" then
    some { kind := .SimulatorNetCDFBuffer, size1 := lib.size1 o.SIMULATE_FILE, size2 := o.K,
           file := o.OUTPUT_FILE, mode := some (modeOf o) }
  else none

/-- The content of `s.get(node)` after the block "inputs". -/
def stateAfterInputs (lib : Lib Buf Rng) (o : Opts) (node : NodeType) : Buf :=
  if o.INIT_FILE ≠ "" then
    lib.read o.INIT_FILE o.INIT_NS node (lib.newState (lib.size1 o.SIMULATE_FILE) node)
  else lib.newState (lib.size1 o.SIMULATE_FILE) node

/-- The content of `theta.get(P_NODE)` after the block "inputs". -/
def thetaAfterInputs (lib : Lib Buf Rng) (o : Opts) : Buf :=
  if o.INIT_FILE ≠ "" then
    lib.read o.INIT_FILE o.INIT_NS .P_NODE (lib.newStatic (some (thetaRows lib o)))
  else lib.newStatic (some (thetaRows lib o))

/-- The library calls of `main`, in program order. -/
def calls (lib : Lib Buf Rng) (o : Opts) : List Call :=
  [ .bi_ode_init o.H o.ATOLER o.RTOLER,
    .newRandom o.SEED,
    .openInput .SimulatorNetCDFBuffer o.SIMULATE_FILE 0 (some (modeOf o)),
    .newStatic (some (thetaRows lib o)),
    .newState (lib.size1 o.SIMULATE_FILE) ]
  ++ (if o.FORCE_FILE ≠ "" then
        [.openInput .SparseInputNetCDFBuffer o.FORCE_FILE o.FORCE_NS none] else [])
  ++ (if o.INIT_FILE ≠ "" then
        [ .openInput .SparseInputNetCDFBuffer o.INIT_FILE o.INIT_NS none,
          .read o.INIT_FILE .P_NODE, .read o.INIT_FILE .D_NODE, .read o.INIT_FILE .C_NODE ]
      else [])
  ++ (match outBuffer lib o with
      | some b => [.openOutput b]
      | none => [])
  ++ [.readState o.SIMULATE_FILE .D_NODE, .readState o.SIMULATE_FILE .C_NODE]
  ++ (if o.INCLUDE_PARAMETERS then [.readState o.SIMULATE_FILE .P_NODE] else [])
  ++ [ .create (some (modeOf o)), .run ]
  ++ (if o.TIME then [.print] else [])

/-- The driver `main` of `predict.cpp`.  `elapsed` is the reading `timer.toc()`. -/
def main (lib : Lib Buf Rng) (rs : List GetoptResult) (elapsed : ℚ) :
    SimulateRun Buf Rng :=
  let o := parse lib.atof rs
  let P := lib.size1 o.SIMULATE_FILE
  let k := lib.size2 o.SIMULATE_FILE - 1
  { calls := calls lib o,
    thetaRows := thetaRows lib o,
    stateRows := P,
    simulate :=
      { mode := modeOf o,
        rng := lib.newRandom o.SEED,
        inForce := if o.FORCE_FILE ≠ "" then some (o.FORCE_FILE, o.FORCE_NS) else none,
        out := outBuffer lib o,
        setTime := some (lib.readTime o.SIMULATE_FILE k),
        T := o.U,
        theta :=
          if o.INCLUDE_PARAMETERS then
            lib.readSingles o.SIMULATE_FILE P (thetaAfterInputs lib o)
          else thetaAfterInputs lib o,
        s := { D := lib.readState o.SIMULATE_FILE .D_NODE k (stateAfterInputs lib o .D_NODE),
               C := lib.readState o.SIMULATE_FILE .C_NODE k (stateAfterInputs lib o .C_NODE) } },
    stdout := if o.TIME then [elapsed] else [],
    exit := 0 }

end predict

/-! ## Reading an option off the results of `getopt_long` -/

/-- The last result with the given code, if there is one. -/
def lastOpt (code : Int) : List GetoptResult → Option GetoptResult
  | [] => none
  | r :: rs =>
    match lastOpt code rs with
    | some r' => some r'
    | none => if r.c = code then some r else none

/-- The value of an integer option: `atoi` of the argument of its last
occurrence, and `dflt` when the option does not occur. -/
def intOption (code : Int) (dflt : Int) (rs : List GetoptResult) : Int :=
  match lastOpt code rs with
  | some r => atoi r.arg
  | none => dflt

/-- The value of a `real` option: `atof` of the argument of its last occurrence,
and `dflt` when the option does not occur. -/
def realOption (atof : String → ℚ) (code : Int) (dflt : ℚ) (rs : List GetoptResult) : ℚ :=
  match lastOpt code rs with
  | some r => atof r.arg
  | none => dflt

/-- The value of a string option declared `required_argument`: the argument of
its last occurrence, and the empty string when the option does not occur. -/
def stringOption (code : Int) (rs : List GetoptResult) : String :=
  match lastOpt code rs with
  | some r => r.arg
  | none => ""

/-- The strategy that a resampler name stands for: the four names of the
resampler option and the four resampler classes. -/
def strategyOfName (name : String) : Option Resampler :=
  if name = "stratified" then some .StratifiedResampler
  else if name = "multinomial" then some .MultinomialResampler
  else if name = "metropolis" then some .MetropolisResampler
  else if name = "exact-stratified" then some .ExactStratifiedResampler
  else none

/-! ## A small library instance, for evaluating the drivers -/

/-- A library instance on which the drivers can be run: a buffer is the list of
the operations that wrote it, a generator is its seed and the number of draws
made from it, `atof` reads integer numerals, `real` is `double`, and every
covariance is the identity matrix. -/
def demoLib : Lib (List String) (Int × Nat) :=
  { atof := fun a => (atoi a : ℚ),
    toReal := fun x => x,
    getNetSize := fun n =>
      match n with
      | .D_NODE => 1
      | .C_NODE => 2
      | .P_NODE => 3,
    newStatic := fun _ => ["theta"],
    newState := fun _ _ => ["s"],
    newRandom := fun seed => (seed, 0),
    read := fun file _ _ b => b ++ ["read " ++ file],
    samples := fun _ rng b => (b ++ ["prior sample"], (rng.1, rng.2 + 1)),
    countUniqueTimes := fun _ _ _ => 5,
    size1 := fun _ => 4,
    size2 := fun _ => 7,
    readState := fun file _ _ b => b ++ ["readState " ++ file],
    readSingles := fun file _ b => b ++ ["readSingle " ++ file],
    readTime := fun _ _ => 0,
    priorSize := 6,
    priorCov := fun _ i j => if i = j then 1 else 0,
    newCov := fun _ _ _ => 0,
    readSmoothCov := fun _ i j => if i = j then 1 else 0,
    pdfSample := fun _ rng => (["x"], (rng.1, rng.2 + 1)) }

/-- The library instance `demoLib` for a model of eleven parameters. -/
def elevenLib : Lib (List String) (Int × Nat) :=
  { demoLib with
    getNetSize := fun n =>
      match n with
      | .D_NODE => 1
      | .C_NODE => 2
      | .P_NODE => 11 }

/-! ## The sampler and the filter behind the drivers

The classes `ParticleMCMC` and `ParticleFilter` belong to the library; the
drivers only construct and call them.  They are modelled here from the
specification, as far as the properties below need them. -/

namespace ParticleMCMC

/-- Modelled from the spec: the Markov Chain State of the data model (the class
`ParticleMCMC` of `bi/method/ParticleMCMC.hpp` is missing from `src/`): the
current accepted parameter vector, its log-likelihood estimate, an acceptance
counter and a step counter; `rows` is what has been emitted to the PMCMC buffer
(parameter draws and log-likelihoods), oldest row first. -/
structure Chain (Vec : Type) where
  theta : Vec
  loglik : ℚ
  numAccepted : Nat
  numSteps : Nat
  rows : List (Vec × ℚ)

/-- Modelled from the spec: what a step (component design, Particle MCMC
Sampler, items 2 to 4) has in hand before it decides: the proposal `θ'`, the
log-likelihood estimate of the fresh particle filter run with `θ'` (`none` when
the inner filter fails, "treat as log-likelihood = −∞"), and the logarithm of
the uniform draw of the acceptance test.  The class is missing from `src/`. -/
structure Proposal (Vec : Type) where
  theta : Vec
  loglik : Option ℚ
  logu : ℚ

variable {Vec : Type}

/-- Modelled from the spec: the acceptance test (the sampler's code is missing
from `src/`), "accept θ' with probability `min(1, exp(loglik' + logprior' -
loglik - logprior) * |Jacobian of transform|)`", written in logarithms: the
draw `u` accepts when `log u < min(0, loglik' + logprior' - loglik - logprior +
log |Jacobian|)`.  A failed inner filter is a rejected step. -/
def accepts (logPrior : Vec → ℚ) (logJacobian : Vec → Vec → ℚ) (c : Chain Vec)
    (p : Proposal Vec) : Bool :=
  match p.loglik with
  | none => false
  | some ll =>
    decide (p.logu
      < min 0 (ll + logPrior p.theta - c.loglik - logPrior c.theta + logJacobian c.theta p.theta))

/-- Modelled from the spec: one step of the chain (the sampler's code is missing
from `src/`): "on accept, replace the chain state and its stored
log-likelihood; on reject, retain the previous state, and re-emit the previous
draw"; one row is emitted either way and the step counter advances. -/
def step (logPrior : Vec → ℚ) (logJacobian : Vec → Vec → ℚ) (c : Chain Vec)
    (p : Proposal Vec) : Chain Vec :=
  if accepts logPrior logJacobian c p then
    { theta := p.theta,
      loglik := p.loglik.getD c.loglik,
      numAccepted := c.numAccepted + 1,
      numSteps := c.numSteps + 1,
      rows := c.rows ++ [(p.theta, p.loglik.getD c.loglik)] }
  else
    { theta := c.theta,
      loglik := c.loglik,
      numAccepted := c.numAccepted,
      numSteps := c.numSteps + 1,
      rows := c.rows ++ [(c.theta, c.loglik)] }

/-- Modelled from the spec: the chain a new sampler starts from (item 1 of the
sampler: an initial `θ` and the log-likelihood of a first particle filter run;
both counters at zero, nothing emitted).  The class is missing from `src/`. -/
def init (theta : Vec) (loglik : ℚ) : Chain Vec :=
  { theta := theta, loglik := loglik, numAccepted := 0, numSteps := 0, rows := [] }

/-- Modelled from the spec: `sample(.., C, ..)` runs `C` steps of the chain, one
after the other (the method is missing from `src/`); `proposals n` is what step
`n` has in hand. -/
def sample (logPrior : Vec → ℚ) (logJacobian : Vec → Vec → ℚ) (c : Chain Vec) (C : Int)
    (proposals : Nat → Proposal Vec) : Chain Vec :=
  (List.range C.toNat).foldl (fun c n => step logPrior logJacobian c (proposals n)) c

end ParticleMCMC

namespace mcmc

/-- The numbers of the line `std::cout << mcmc->getNumAccepted() << " of " <<
mcmc->getNumSteps() << " proposals accepted"`: accepted first, steps second. -/
def wrapUp {Vec : Type} (chain : ParticleMCMC.Chain Vec) : Nat × Nat :=
  (chain.numAccepted, chain.numSteps)

end mcmc

namespace ParticleFilter

/-- Modelled from the spec: a particle of the Particle Ensemble of the data
model (the class `ParticleFilter` of `bi/method/ParticleFilter.hpp` is missing
from `src/`): its state, an unnormalised weight and an optional ancestor. -/
structure Particle (X : Type) where
  state : X
  weight : ℚ
  ancestor : Option Nat

/-- Modelled from the spec: the fatal degeneracy condition of the error
taxonomy, item (a); the filter's code is missing from `src/`. -/
inductive Error
  | degenerate
  deriving DecidableEq, Repr

/-- Modelled from the spec: the configuration of the resample decision, "if ESS
falls below a configured fraction of P (or unconditionally, depending on
configuration)"; the filter's code is missing from `src/`. -/
structure Config where
  essRel : ℚ
  always : Bool

variable {X : Type}

/-- Modelled from the spec: step 3, Weight, "multiply each particle's weight by
the observation likelihood"; the filter's code is missing from `src/`. -/
def weight (lik : X → ℚ) (ens : List (Particle X)) : List (Particle X) :=
  ens.map fun p => { p with weight := p.weight * lik p.state }

/-- Modelled from the spec: the sum of the weights of an ensemble, which "must
sum to a positive finite value before resampling"; the filter's code is missing
from `src/`. -/
def sumWeights (ens : List (Particle X)) : ℚ := (ens.map fun p => p.weight).sum

/-- Modelled from the spec: the effective sample size of the resample decision,
`(Σ w)² / Σ w²`, which is the ESS of the normalised weights; the filter's code
is missing from `src/`. -/
def ess (ens : List (Particle X)) : ℚ :=
  sumWeights ens ^ 2 / (ens.map fun p => p.weight ^ 2).sum

/-- Modelled from the spec: the new ensemble of a resampling plan, particle `i`
a copy of old particle `indices[i]`, weights reset to uniform, the ancestor
recorded; the filter's code is missing from `src/`. -/
def copyParticles (ens : List (Particle X)) (indices : List Nat) : List (Particle X) :=
  indices.filterMap fun a =>
    (ens.get? a).map fun p => { state := p.state, weight := 1, ancestor := some a }

/-- Modelled from the spec: one pass of the filter's state machine over an
observation time (steps 2 to 5: Propagate, Weight, Resample decision,
Accumulate likelihood), with the error condition of the resampler contract:
weights "must sum to a positive finite value before resampling (zero-sum is a
fatal degeneracy)", which "the filter must detect and report rather than
resample".  `logMean` is `log(mean(weights))`.  The filter's code is missing from
`src/`. -/
def filterStep (cfg : Config) (resampler : List ℚ → List Nat) (logMean : List ℚ → ℚ)
    (propagate : X → X) (lik : X → ℚ) (st : List (Particle X) × ℚ) :
    Except Error (List (Particle X) × ℚ) :=
  let moved := st.1.map fun p => { p with state := propagate p.state }
  let weighted := weight lik moved
  if 0 < sumWeights weighted then
    let ll := st.2 + logMean (weighted.map fun p => p.weight)
    if cfg.always ∨ ess weighted < cfg.essRel * (weighted.length : ℚ) then
      .ok (copyParticles weighted (resampler (weighted.map fun p => p.weight)), ll)
    else .ok (weighted, ll)
  else .error .degenerate

/-- Modelled from the spec: a filter run over the observation times, each given
by its propagation and its likelihood: it "either completes T observation steps
or fails (fatal)".  The filter's code is missing from `src/`. -/
def filter (cfg : Config) (resampler : List ℚ → List Nat) (logMean : List ℚ → ℚ) :
    List ((X → X) × (X → ℚ)) → List (Particle X) × ℚ → Except Error (List (Particle X) × ℚ)
  | [], st => .ok st
  | (propagate, lik) :: rest, st =>
    match filterStep cfg resampler logMean propagate lik st with
    | .ok st' => filter cfg resampler logMean rest st'
    | .error e => .error e

end ParticleFilter

namespace pf

/-- The end of `main`, from `filter->filter(T, theta, s, &resam)` on: no handler
surrounds the call, so a condition raised by the filter ends the run there;
otherwise the timing is printed when asked for and `main` returns 0. -/
def finish {α : Type} (o : Opts) (elapsed : ℚ) (result : Except ParticleFilter.Error α) :
    Except ParticleFilter.Error (List ℚ × Int) :=
  match result with
  | .error e => .error e
  | .ok _ => .ok (if o.TIME then [elapsed] else [], 0)

end pf

/-! ## Predicates used to state the properties -/

/-- Library calls that allocate state, open a buffer, read or sample into the
state, or run the method. -/
def Call.isWork : Call → Bool
  | .newStatic _ => true
  | .newState _ => true
  | .openInput _ _ _ _ => true
  | .openOutput _ => true
  | .read _ _ => true
  | .readState _ _ => true
  | .samples _ => true
  | .pdfSample _ => true
  | .run => true
  | _ => false

/-- A run that fails at startup: it does not return 0, and it has not allocated
state, opened a buffer or run the method. -/
def failsAtStartup (calls : List Call) (exit : Int) : Prop :=
  exit ≠ 0 ∧ ∀ c ∈ calls, c.isWork = false

instance (calls : List Call) (exit : Int) : Decidable (failsAtStartup calls exit) := by
  unfold failsAtStartup
  infer_instance

/-- The construction of a random number generator. -/
def Call.isNewRandom : Call → Bool
  | .newRandom _ => true
  | _ => false

/-- Whether a library call writes the given node of the state or of the static
parameters: a read from the init file, a read from the simulation file, or a
sample of the prior. -/
def Call.writes (node : NodeType) : Call → Bool
  | .read _ n => n = node
  | .readState _ n => n = node
  | .samples n => n = node
  | _ => false

/-- The last library call of a run that writes the given node. -/
def lastWrite (node : NodeType) (calls : List Call) : Option Call :=
  (calls.filter (Call.writes node)).getLast?

/-- A library instance whose buffers have a shape: a buffer is a number of rows
and the list of the operations whose values it holds.  No write changes the
number of rows, and every write replaces what the buffer held; a prior sample
makes as many draws as its target has rows.  The rest is as in `demoLib`. -/
def rowsLib : Lib (Int × List String) (Int × Nat) :=
  { atof := fun a => (atoi a : ℚ),
    toReal := fun x => x,
    getNetSize := fun n =>
      match n with
      | .D_NODE => 1
      | .C_NODE => 2
      | .P_NODE => 3,
    newStatic := fun rows => (rows.getD 1, ["theta"]),
    newState := fun rows _ => (rows, ["s"]),
    newRandom := fun seed => (seed, 0),
    read := fun file _ _ b => (b.1, ["read " ++ file]),
    samples := fun _ rng b => ((b.1, ["prior sample"]), (rng.1, rng.2 + b.1.toNat)),
    countUniqueTimes := fun _ _ _ => 5,
    size1 := fun _ => 4,
    size2 := fun _ => 7,
    readState := fun file _ _ b => (b.1, ["readState " ++ file]),
    readSingles := fun file _ b => (b.1, ["readSingle " ++ file]),
    readTime := fun _ _ => 0,
    priorSize := 6,
    priorCov := fun _ i j => if i = j then 1 else 0,
    newCov := fun _ _ _ => 0,
    readSmoothCov := fun _ i j => if i = j then 1 else 0,
    pdfSample := fun _ rng => ((1, ["x"]), (rng.1, rng.2 + 1)) }

/-- The library with other content of newly constructed storage: what
`Static<LOCATION> theta(m, rows)`, `State<LOCATION> s(m, P)` and the covariance
of `AdditiveExpGaussianPdf<> q(n)` hold before the driver writes them.  All
other library calls are the same. -/
def Lib.withStorage {Buf Rng : Type} (lib : Lib Buf Rng) (newStatic : Option Int → Buf)
    (newState : Int → NodeType → Buf) (newCov : Nat → Mat) : Lib Buf Rng :=
  { lib with newStatic := newStatic, newState := newState, newCov := newCov }

/-- Whether the entry (i, j) lies in one of the three diagonal blocks of
`q.cov()` that `mcmc` assigns from the covariances of the priors. -/
def inPriorBlocks (ND NC NP i j : Nat) : Prop :=
  (i < ND ∧ j < ND) ∨
  (ND ≤ i ∧ i < ND + NC ∧ ND ≤ j ∧ j < ND + NC) ∨
  (ND + NC ≤ i ∧ i < ND + NC + NP ∧ ND + NC ≤ j ∧ j < ND + NC + NP)

/-! # Theorems -/

/-! ## Lemmas on the option loops -/

theorem shortOpt_T : shortOpt 'T' = 84 := by decide

theorem shortOpt_h : shortOpt 'h' = 104 := by decide

theorem shortOpt_P : shortOpt 'P' = 80 := by decide

theorem shortOpt_L : shortOpt 'L' = 76 := by decide

theorem shortOpt_C : shortOpt 'C' = 67 := by decide

theorem shortOpt_A : shortOpt 'A' = 65 := by decide

theorem shortOpt_K : shortOpt 'K' = 75 := by decide

theorem shortOpt_U : shortOpt 'U' = 85 := by decide

theorem shortOpt_b : shortOpt 'b' = 98 := by decide

/-- A variable that only the case `code` of the `switch` assigns holds, after
the loop, what the last result with that code assigned, or its initial value. -/
theorem foldl_option {σ β : Type} (step : σ → GetoptResult → σ) (f : σ → β) (code : Int)
    (g : GetoptResult → β) (h : ∀ o r, f (step o r) = if r.c = code then g r else f o)
    (rs : List GetoptResult) (o : σ) :
    f (rs.foldl step o) = match lastOpt code rs with | some r => g r | none => f o := by
  induction rs generalizing o with
  | nil => simp [lastOpt]
  | cons r rs ih =>
    rw [List.foldl_cons, ih, lastOpt]
    cases lastOpt code rs with
    | some r' => rfl
    | none =>
      by_cases hc : r.c = code
      · simp [h, hc]
      · simp [h, hc]

namespace pf

theorem pf_step_INCLUDE_PARAMETERS (atof : String → ℚ) (o : Opts) (r : GetoptResult) :
    (step atof o r).INCLUDE_PARAMETERS
      = if r.c = INCLUDE_PARAMETERS_ARG then intToBool (atoi r.arg)
        else o.INCLUDE_PARAMETERS := by
  by_cases h : r.c = INCLUDE_PARAMETERS_ARG
  · simp [step, h]
  · simp only [step, apply_ite Opts.INCLUDE_PARAMETERS, h, if_false, ite_self]

theorem pf_step_P (atof : String → ℚ) (o : Opts) (r : GetoptResult) :
    (step atof o r).P = if r.c = shortOpt 'P' then atoi r.arg else o.P := by
  by_cases h : r.c = shortOpt 'P'
  · simp [step, h, shortOpt_T, shortOpt_h, shortOpt_P, shortOpt_L]
  · simp only [step, apply_ite Opts.P, h, if_false, ite_self]

theorem pf_step_INIT_FILE (atof : String → ℚ) (o : Opts) (r : GetoptResult) :
    (step atof o r).INIT_FILE = if r.c = INIT_FILE_ARG then r.arg else o.INIT_FILE := by
  by_cases h : r.c = INIT_FILE_ARG
  · simp [step, h]
  · simp only [step, apply_ite Opts.INIT_FILE, h, if_false, ite_self]

theorem pf_step_RESAMPLER (atof : String → ℚ) (o : Opts) (r : GetoptResult) :
    (step atof o r).RESAMPLER = if r.c = RESAMPLER_ARG then r.arg else o.RESAMPLER := by
  by_cases h : r.c = RESAMPLER_ARG
  · simp [step, h]
  · simp only [step, apply_ite Opts.RESAMPLER, h, if_false, ite_self]

theorem pf_step_SEED (atof : String → ℚ) (o : Opts) (r : GetoptResult) :
    (step atof o r).SEED = if r.c = SEED_ARG then atoi r.arg else o.SEED := by
  by_cases h : r.c = SEED_ARG
  · simp [step, h]
  · simp only [step, apply_ite Opts.SEED, h, if_false, ite_self]

/-- After the loop `INCLUDE_PARAMETERS` is the C truth value of the flag. -/
theorem pf_parse_INCLUDE_PARAMETERS (atof : String → ℚ) (rs : List GetoptResult) :
    (parse atof rs).INCLUDE_PARAMETERS
      = intToBool (intOption INCLUDE_PARAMETERS_ARG 0 rs) := by
  rw [parse, foldl_option (step atof) Opts.INCLUDE_PARAMETERS INCLUDE_PARAMETERS_ARG
    (fun r => intToBool (atoi r.arg)) (pf_step_INCLUDE_PARAMETERS atof), intOption]
  cases lastOpt INCLUDE_PARAMETERS_ARG rs <;> rfl

/-- After the loop `P` is the value of `-P`, and 1024 without one. -/
theorem pf_parse_P (atof : String → ℚ) (rs : List GetoptResult) :
    (parse atof rs).P = intOption (shortOpt 'P') 1024 rs := by
  rw [parse, foldl_option (step atof) Opts.P (shortOpt 'P')
    (fun r => atoi r.arg) (pf_step_P atof), intOption]
  cases lastOpt (shortOpt 'P') rs <;> rfl

/-- After the loop `INIT_FILE` is the name given last, and empty without one. -/
theorem pf_parse_INIT_FILE (atof : String → ℚ) (rs : List GetoptResult) :
    (parse atof rs).INIT_FILE = stringOption INIT_FILE_ARG rs := by
  rw [parse, foldl_option (step atof) Opts.INIT_FILE INIT_FILE_ARG
    (fun r => r.arg) (pf_step_INIT_FILE atof), stringOption]
  cases lastOpt INIT_FILE_ARG rs <;> rfl

/-- After the loop `RESAMPLER` is the name given last, and `"stratified"`
without one. -/
theorem pf_parse_RESAMPLER (atof : String → ℚ) (rs : List GetoptResult) :
    (parse atof rs).RESAMPLER
      = match lastOpt RESAMPLER_ARG rs with
        | some r => r.arg
        | none => "stratified" := by
  rw [parse, foldl_option (step atof) Opts.RESAMPLER RESAMPLER_ARG
    (fun r => r.arg) (pf_step_RESAMPLER atof)]
  cases lastOpt RESAMPLER_ARG rs <;> rfl

/-- After the loop `SEED` is the value of the seed option, and 0 without one. -/
theorem pf_parse_SEED (atof : String → ℚ) (rs : List GetoptResult) :
    (parse atof rs).SEED = intOption SEED_ARG 0 rs := by
  rw [parse, foldl_option (step atof) Opts.SEED SEED_ARG
    (fun r => atoi r.arg) (pf_step_SEED atof), intOption]
  cases lastOpt SEED_ARG rs <;> rfl

end pf

namespace kfb

theorem kfb_step_INCLUDE_PARAMETERS (atof : String → ℚ) (o : Opts) (r : GetoptResult) :
    (step atof o r).INCLUDE_PARAMETERS
      = if r.c = INCLUDE_PARAMETERS_ARG then intToBool (atoi r.arg)
        else o.INCLUDE_PARAMETERS := by
  by_cases h : r.c = INCLUDE_PARAMETERS_ARG
  · simp [step, h]
  · simp only [step, apply_ite Opts.INCLUDE_PARAMETERS, h, if_false, ite_self]

/-- After the loop `INCLUDE_PARAMETERS` is the C truth value of the flag. -/
theorem kfb_parse_INCLUDE_PARAMETERS (atof : String → ℚ) (B0 : ℚ) (rs : List GetoptResult) :
    (parse atof B0 rs).INCLUDE_PARAMETERS
      = intToBool (intOption INCLUDE_PARAMETERS_ARG 0 rs) := by
  rw [parse, foldl_option (step atof) Opts.INCLUDE_PARAMETERS INCLUDE_PARAMETERS_ARG
    (fun r => intToBool (atoi r.arg)) (kfb_step_INCLUDE_PARAMETERS atof), intOption]
  cases lastOpt INCLUDE_PARAMETERS_ARG rs <;> rfl

end kfb

namespace simulate

theorem simulate_step_P (atof : String → ℚ) (o : Opts) (r : GetoptResult) :
    (step atof o r).P = if r.c = shortOpt 'P' then atoi r.arg else o.P := by
  by_cases h : r.c = shortOpt 'P'
  · simp [step, h, shortOpt_T, shortOpt_h, shortOpt_P, shortOpt_K]
  · simp only [step, apply_ite Opts.P, h, if_false, ite_self]

/-- After the loop `P` is the value of `-P`, and 0 without one. -/
theorem simulate_parse_P (atof : String → ℚ) (rs : List GetoptResult) :
    (parse atof rs).P = intOption (shortOpt 'P') 0 rs := by
  rw [parse, foldl_option (step atof) Opts.P (shortOpt 'P')
    (fun r => atoi r.arg) (simulate_step_P atof), intOption]
  cases lastOpt (shortOpt 'P') rs <;> rfl

end simulate

namespace predict

end predict

/-! ## Static handling in the four drivers with a parameter flag -/

/-- C1 (the code falls short of it): the claim wants the resampler handed to
the filter (`pf`) and to the sampler (`mcmc`) to be the strategy that the
resampler option names.  The drivers store the name in `RESAMPLER` and never
read it: for every argument vector both construct a `StratifiedResampler`.  At
the argument vector of the single option "resampler multinomial" the name is
stored, it stands for `MultinomialResampler`, and the object handed on is a
`StratifiedResampler`, in `pf` and in `mcmc`. -/
theorem C1_resampler_name_never_read :
    (∀ (Buf Rng : Type) (lib : Lib Buf Rng) (rs : List GetoptResult) (elapsed : ℚ),
      (pf.main lib rs elapsed).filter.resam = .StratifiedResampler ∧
      (mcmc.main lib rs).sample.resam = .StratifiedResampler) ∧
    (pf.parse demoLib.atof [⟨pf.RESAMPLER_ARG, some "multinomial"⟩]).RESAMPLER
      = "multinomial" ∧
    (mcmc.parse demoLib.atof [⟨mcmc.RESAMPLER_ARG, some "multinomial"⟩]).RESAMPLER
      = "multinomial" ∧
    strategyOfName "multinomial" = some .MultinomialResampler ∧
    some (pf.main demoLib [⟨pf.RESAMPLER_ARG, some "multinomial"⟩] 0).filter.resam
      ≠ strategyOfName "multinomial" ∧
    some (mcmc.main demoLib [⟨mcmc.RESAMPLER_ARG, some "multinomial"⟩]).sample.resam
      ≠ strategyOfName "multinomial" := by
  refine ⟨fun _ _ _ _ _ => ⟨rfl, rfl⟩, ?_, ?_, ?_, ?_, ?_⟩ <;> decide

/-- C3: in the `pf` driver, for every argument vector: `INIT_FILE` is the name
given by the last init-file option (empty without one).  When it is not empty,
the D-node and C-node state handed to the filter is what `inInit->read` wrote
into the newly allocated state, no prior is sampled and the generator is
handed on as seeded.  When it is empty, the D-node state of the `P` rows of `s`
is the draw `getPrior<D_NODE>().samples(rng, ..)` from the newly seeded
generator, the C-node state the draw `getPrior<C_NODE>().samples(rng, ..)` that
follows it, and nothing is read from an init file. -/
theorem C3_pf_initial_state {Buf Rng : Type} (lib : Lib Buf Rng) (rs : List GetoptResult)
    (elapsed : ℚ) :
    (pf.parse lib.atof rs).INIT_FILE = stringOption pf.INIT_FILE_ARG rs ∧
    (pf.main lib rs elapsed).stateRows = (pf.parse lib.atof rs).P ∧
    Call.newState (pf.parse lib.atof rs).P ∈ (pf.main lib rs elapsed).calls ∧
    ((pf.parse lib.atof rs).INIT_FILE ≠ "" →
      (pf.main lib rs elapsed).filter.s.D
        = lib.read (pf.parse lib.atof rs).INIT_FILE (pf.parse lib.atof rs).INIT_NS .D_NODE
            (lib.newState (pf.parse lib.atof rs).P .D_NODE) ∧
      (pf.main lib rs elapsed).filter.s.C
        = lib.read (pf.parse lib.atof rs).INIT_FILE (pf.parse lib.atof rs).INIT_NS .C_NODE
            (lib.newState (pf.parse lib.atof rs).P .C_NODE) ∧
      (∀ node, Call.samples node ∉ (pf.main lib rs elapsed).calls) ∧
      (pf.main lib rs elapsed).filter.rng = lib.newRandom (pf.parse lib.atof rs).SEED) ∧
    ((pf.parse lib.atof rs).INIT_FILE = "" →
      (pf.main lib rs elapsed).filter.s.D
        = (lib.samples .D_NODE (lib.newRandom (pf.parse lib.atof rs).SEED)
            (lib.newState (pf.parse lib.atof rs).P .D_NODE)).1 ∧
      (pf.main lib rs elapsed).filter.s.C
        = (lib.samples .C_NODE
            (lib.samples .D_NODE (lib.newRandom (pf.parse lib.atof rs).SEED)
              (lib.newState (pf.parse lib.atof rs).P .D_NODE)).2
            (lib.newState (pf.parse lib.atof rs).P .C_NODE)).1 ∧
      Call.samples .D_NODE ∈ (pf.main lib rs elapsed).calls ∧
      Call.samples .C_NODE ∈ (pf.main lib rs elapsed).calls ∧
      (∀ file node, Call.read file node ∉ (pf.main lib rs elapsed).calls)) := by
  refine ⟨pf.pf_parse_INIT_FILE lib.atof rs, rfl, by simp [pf.main, pf.calls], ?_, ?_⟩
  · intro h
    refine ⟨by simp [pf.main, pf.stateAtFilter, h], by simp [pf.main, pf.stateAtFilter, h],
      ?_, by simp [pf.main, pf.rngAtFilter, h]⟩
    intro node
    simp only [pf.main, pf.calls, pf.outBuffer]
    cases (pf.parse lib.atof rs).OUTPUT <;> simp [h]
  · intro h
    refine ⟨by simp [pf.main, pf.stateAtFilter, h], by simp [pf.main, pf.stateAtFilter, h],
      by simp [pf.main, pf.calls, h], by simp [pf.main, pf.calls, h], ?_⟩
    intro file node
    simp only [pf.main, pf.calls, pf.outBuffer]
    cases (pf.parse lib.atof rs).OUTPUT <;> simp [h]

/-- C3 at two argument vectors: with the init file `init.nc` the D-node state
handed to the filter is the allocated buffer overwritten by the read and the
generator has made no draw; without an init file it is the allocated buffer
overwritten by the prior sample. -/
theorem C3_pf_initial_state_witness :
    (pf.main demoLib [⟨pf.INIT_FILE_ARG, some "init.nc"⟩] 0).filter.s.D
      = ["s", "read init.nc"] ∧
    (pf.main demoLib [⟨pf.INIT_FILE_ARG, some "init.nc"⟩] 0).filter.rng = (0, 0) ∧
    (∀ node, Call.samples node
      ∉ (pf.main demoLib [⟨pf.INIT_FILE_ARG, some "init.nc"⟩] 0).calls) ∧
    (pf.main demoLib [] 0).filter.s.D = ["s", "prior sample"] :=
  ⟨((C3_pf_initial_state demoLib [⟨pf.INIT_FILE_ARG, some "init.nc"⟩] 0).2.2.2.1
      (by decide)).1,
   ((C3_pf_initial_state demoLib [⟨pf.INIT_FILE_ARG, some "init.nc"⟩] 0).2.2.2.1
      (by decide)).2.2.2,
   ((C3_pf_initial_state demoLib [⟨pf.INIT_FILE_ARG, some "init.nc"⟩] 0).2.2.2.1
      (by decide)).2.2.1,
   ((C3_pf_initial_state demoLib [] 0).2.2.2.2 (by decide)).1⟩

/-! ## The option loop of `mcmc` -/

namespace mcmc

theorem mcmc_step_SD (atof : String → ℚ) (o : Opts) (r : GetoptResult) :
    (step atof o r).SD = if r.c = SD_ARG then atof r.arg else o.SD := by
  by_cases h : r.c = SD_ARG
  · simp [step, h]
  · cases r with
    | mk c optarg =>
      cases optarg <;> simp only [step, apply_ite Opts.SD, h, if_false, ite_self]

theorem mcmc_step_SCALE (atof : String → ℚ) (o : Opts) (r : GetoptResult) :
    (step atof o r).SCALE = if r.c = SCALE_ARG then atof r.arg else o.SCALE := by
  by_cases h : r.c = SCALE_ARG
  · simp [step, h]
  · cases r with
    | mk c optarg =>
      cases optarg <;> simp only [step, apply_ite Opts.SCALE, h, if_false, ite_self]

theorem mcmc_step_P (atof : String → ℚ) (o : Opts) (r : GetoptResult) :
    (step atof o r).P = if r.c = shortOpt 'P' then atoi r.arg else o.P := by
  by_cases h : r.c = shortOpt 'P'
  · simp [step, h, shortOpt_T, shortOpt_h, shortOpt_P, shortOpt_L, shortOpt_C, shortOpt_A]
  · cases r with
    | mk c optarg =>
      cases optarg <;> simp only [step, apply_ite Opts.P, h, if_false, ite_self]

theorem mcmc_step_SEED (atof : String → ℚ) (o : Opts) (r : GetoptResult) :
    (step atof o r).SEED = if r.c = SEED_ARG then atoi r.arg else o.SEED := by
  by_cases h : r.c = SEED_ARG
  · simp [step, h]
  · cases r with
    | mk c optarg =>
      cases optarg <;> simp only [step, apply_ite Opts.SEED, h, if_false, ite_self]

/-- After the loop `SD` is the value of the sd option, and 0.0 without one. -/
theorem mcmc_parse_SD (atof : String → ℚ) (rs : List GetoptResult) :
    (parse atof rs).SD = realOption atof SD_ARG 0.0 rs := by
  rw [parse, foldl_option (step atof) Opts.SD SD_ARG
    (fun r => atof r.arg) (mcmc_step_SD atof), realOption]
  cases lastOpt SD_ARG rs <;> rfl

/-- After the loop `SCALE` is the value of the scale option, and 0.01 without
one. -/
theorem mcmc_parse_SCALE (atof : String → ℚ) (rs : List GetoptResult) :
    (parse atof rs).SCALE = realOption atof SCALE_ARG 0.01 rs := by
  rw [parse, foldl_option (step atof) Opts.SCALE SCALE_ARG
    (fun r => atof r.arg) (mcmc_step_SCALE atof), realOption]
  cases lastOpt SCALE_ARG rs <;> rfl

/-- After the loop `P` is the value of `-P`, and 1024 without one. -/
theorem mcmc_parse_P (atof : String → ℚ) (rs : List GetoptResult) :
    (parse atof rs).P = intOption (shortOpt 'P') 1024 rs := by
  rw [parse, foldl_option (step atof) Opts.P (shortOpt 'P')
    (fun r => atoi r.arg) (mcmc_step_P atof), intOption]
  cases lastOpt (shortOpt 'P') rs <;> rfl

/-- After the loop `SEED` is the value of the seed option, and 0 without one. -/
theorem mcmc_parse_SEED (atof : String → ℚ) (rs : List GetoptResult) :
    (parse atof rs).SEED = intOption SEED_ARG 0 rs := by
  rw [parse, foldl_option (step atof) Opts.SEED SEED_ARG
    (fun r => atoi r.arg) (mcmc_step_SEED atof), intOption]
  cases lastOpt SEED_ARG rs <;> rfl

end mcmc

/-! ## Rounding to `double` -/

/-- Rounding to the nearest integer moves a number by at most one half. -/
theorem roundHalfEven_sub_le (q : ℚ) : |(roundHalfEven q : ℚ) - q| ≤ 1 / 2 := by
  unfold roundHalfEven
  have h1 := Int.floor_le q
  have h2 := Int.lt_floor_add_one q
  split_ifs with ha hb hc
  · rw [abs_le]; constructor <;> linarith
  · rw [abs_le]; push_cast; constructor <;> linarith
  · rw [abs_le]; constructor <;> linarith
  · rw [abs_le]; push_cast; constructor <;> linarith

/-- An integer less than one half away is the result of the rounding. -/
theorem roundHalfEven_eq (q : ℚ) (m : Int) (h : |q - m| < 1 / 2) : roundHalfEven q = m := by
  rw [abs_lt] at h
  have hf : ⌊q⌋ = m ∨ ⌊q⌋ = m - 1 := by
    by_cases hq : (m : ℚ) ≤ q
    · left
      rw [Int.floor_eq_iff]
      constructor <;> linarith
    · right
      rw [Int.floor_eq_iff]
      push_cast
      constructor <;> linarith
  unfold roundHalfEven
  rcases hf with hf | hf
  · rw [hf]
    rw [if_pos (by linarith)]
  · rw [hf]
    have : ¬ (q - ((m - 1 : Int) : ℚ) < 1 / 2) := by push_cast; linarith
    rw [if_neg this, if_pos (by push_cast; linarith)]
    ring

/-- The relative error of a rounding to `double` is at most `2 ^ (-53)`. -/
theorem roundDouble_sub_le (x : ℚ) : |roundDouble x - x| ≤ |x| / 2 ^ 53 := by
  unfold roundDouble
  split_ifs with h0
  · simp [h0]
  · have hx : 0 < |x| := abs_pos.mpr h0
    have hL := Int.zpow_log_le_self (by norm_num : 1 < 2) hx
    set L := Int.log 2 |x| with hLdef
    have hpos : (0 : ℚ) < 2 ^ (L - 52) := by positivity
    have hr := roundHalfEven_sub_le (x / 2 ^ (L - 52))
    have key : (roundHalfEven (x / 2 ^ (L - 52)) : ℚ) * 2 ^ (L - 52) - x
        = ((roundHalfEven (x / 2 ^ (L - 52)) : ℚ) - x / 2 ^ (L - 52)) * 2 ^ (L - 52) := by
      field_simp
    rw [key, abs_mul, abs_of_pos hpos]
    have h2 : (2 : ℚ) ^ (L - 52) = 2 ^ L / 2 ^ 52 := by
      rw [zpow_sub₀ (by norm_num)]; norm_num
    calc |(roundHalfEven (x / 2 ^ (L - 52)) : ℚ) - x / 2 ^ (L - 52)| * 2 ^ (L - 52)
        ≤ 1 / 2 * 2 ^ (L - 52) := by gcongr
      _ = 2 ^ L / 2 ^ 53 := by rw [h2]; ring
      _ ≤ |x| / 2 ^ 53 := by
        have hL' : (2 : ℚ) ^ L ≤ |x| := by exact_mod_cast hL
        gcongr

/-- The `double` nearest to `x`, from its binary exponent `L` and a 53-bit
integer `m` with `m * 2 ^ (L - 52)` less than half a unit in the last place
away from `x`. -/
theorem roundDouble_eq (x : ℚ) (L m : Int) (h1 : (2 : ℚ) ^ L ≤ |x|) (h2 : |x| < 2 ^ (L + 1))
    (hm : |x / 2 ^ (L - 52) - m| < 1 / 2) : roundDouble x = m * 2 ^ (L - 52) := by
  have hx : 0 < |x| := lt_of_lt_of_le (by positivity) h1
  have hlog : Int.log 2 |x| = L := by
    apply le_antisymm
    · have := (Int.lt_zpow_iff_log_lt (by norm_num : 1 < 2) hx).mp h2
      omega
    · exact (Int.zpow_le_iff_le_log (by norm_num : 1 < 2) hx).mp h1
  unfold roundDouble
  rw [if_neg (abs_pos.mp hx), hlog, roundHalfEven_eq _ m hm]

/-- The `double` of the literal `2.4`. -/
theorem roundDouble_literal : roundDouble 2.4 = 5404319552844595 / 2 ^ 51 := by
  rw [roundDouble_eq 2.4 1 5404319552844595 (by norm_num [abs_of_pos])
    (by norm_num [abs_of_pos]) (by rw [abs_lt]; constructor <;> norm_num)]
  norm_num

/-- The `double` product `2.4*2.4`. -/
theorem roundDouble_product :
    roundDouble (roundDouble 2.4 * roundDouble 2.4) = 3242591731706757 / 2 ^ 49 := by
  rw [roundDouble_literal,
    roundDouble_eq _ 2 6485183463413514 (by norm_num [abs_of_pos])
      (by norm_num [abs_of_pos]) (by rw [abs_lt]; constructor <;> norm_num)]
  norm_num

/-- The `double` nearest to 5.76; it is the `double` product `2.4*2.4`. -/
theorem roundDouble_5_76 : roundDouble 5.76 = 3242591731706757 / 2 ^ 49 := by
  rw [roundDouble_eq 5.76 2 6485183463413514 (by norm_num [abs_of_pos])
    (by norm_num [abs_of_pos]) (by rw [abs_lt]; constructor <;> norm_num)]
  norm_num

/-- The value of `2.4*2.4/NP` for three parameters. -/
theorem defaultSD_3 : mcmc.defaultSD 3 = 1080863910568919 / 2 ^ 49 := by
  unfold mcmc.defaultSD
  rw [roundDouble_product,
    roundDouble_eq _ 0 8646911284551352 (by norm_num [abs_of_pos])
      (by norm_num [abs_of_pos]) (by rw [abs_lt]; constructor <;> norm_num)]
  norm_num

/-- The value of `2.4*2.4/NP` for eleven parameters. -/
theorem defaultSD_11 : mcmc.defaultSD 11 = 4716497064300737 / 2 ^ 53 := by
  unfold mcmc.defaultSD
  rw [roundDouble_product,
    roundDouble_eq _ (-1) 4716497064300737 (by norm_num [abs_of_pos])
      (by norm_num [abs_of_pos]) (by rw [abs_lt]; constructor <;> norm_num)]
  norm_num

/-- The value of `2.4*2.4/NP` times `NP` is 5.76 up to two roundings. -/
theorem defaultSD_mul_sub_le (NP : Nat) (hNP : 0 < NP) :
    |mcmc.defaultSD NP * (NP : ℚ) - 5.76| ≤ 5.76 / 2 ^ 52 := by
  have hn : (0 : ℚ) < (NP : ℚ) := by exact_mod_cast hNP
  have hr := roundDouble_sub_le ((3242591731706757 / 2 ^ 49 : ℚ) / (NP : ℚ))
  have hb : |(3242591731706757 / 2 ^ 49 : ℚ) / (NP : ℚ)|
      = (3242591731706757 / 2 ^ 49 : ℚ) / (NP : ℚ) := abs_of_pos (by positivity)
  rw [hb] at hr
  unfold mcmc.defaultSD
  rw [roundDouble_product]
  set c := roundDouble ((3242591731706757 / 2 ^ 49 : ℚ) / (NP : ℚ)) with hc
  rw [abs_le] at hr ⊢
  obtain ⟨hr1, hr2⟩ := hr
  have e : (3242591731706757 / 2 ^ 49 : ℚ) / (NP : ℚ) * (NP : ℚ) = 3242591731706757 / 2 ^ 49 := by
    field_simp
    ring
  have e2 : (3242591731706757 / 2 ^ 49 : ℚ) / (NP : ℚ) / 2 ^ 53 * (NP : ℚ)
      = 3242591731706757 / 2 ^ 49 / 2 ^ 53 := by
    field_simp
    ring
  have m1 := mul_le_mul_of_nonneg_right hr1 hn.le
  have m2 := mul_le_mul_of_nonneg_right hr2 hn.le
  rw [sub_mul, e] at m2
  rw [sub_mul, e, neg_mul, e2] at m1
  rw [e2] at m2
  constructor
  · norm_num at m1 ⊢
    linarith
  · norm_num at m2 ⊢
    linarith

/-- C4 (the claim as it stands fails): with the proposal file `prop.nc` and no
other option, `SCALE` is 0.01 and the covariance read from the file has the
entry 1 at (0, 0), but the entry of the initial proposal covariance there is
not 0.01: it is the value of `2.4*2.4/3` in `double`, 1080863910568919 / 2 ^ 49
(1.92 to fifteen digits), the value of `SD` for the three parameters. -/
theorem C4_counterexample :
    (mcmc.parse demoLib.atof [⟨mcmc.PROPOSAL_FILE_ARG, some "prop.nc"⟩]).PROPOSAL_FILE
      = "prop.nc" ∧
    (mcmc.parse demoLib.atof [⟨mcmc.PROPOSAL_FILE_ARG, some "prop.nc"⟩]).SCALE = 0.01 ∧
    demoLib.readSmoothCov "prop.nc" 0 0 = 1 ∧
    (mcmc.main demoLib [⟨mcmc.PROPOSAL_FILE_ARG, some "prop.nc"⟩]).sample.qCov 0 0
      = 1080863910568919 / 2 ^ 49 ∧
    (mcmc.main demoLib [⟨mcmc.PROPOSAL_FILE_ARG, some "prop.nc"⟩]).sample.qCov 0 0
      ≠ matrix_scal
          (mcmc.parse demoLib.atof [⟨mcmc.PROPOSAL_FILE_ARG, some "prop.nc"⟩]).SCALE
          (demoLib.readSmoothCov "prop.nc") 0 0 := by
  have hf : (mcmc.parse demoLib.atof [⟨mcmc.PROPOSAL_FILE_ARG, some "prop.nc"⟩]).PROPOSAL_FILE
      = "prop.nc" := by decide
  have hs : (mcmc.parse demoLib.atof [⟨mcmc.PROPOSAL_FILE_ARG, some "prop.nc"⟩]).SCALE
      = 0.01 := by
    rw [mcmc.mcmc_parse_SCALE]; rfl
  have hd : (mcmc.parse demoLib.atof [⟨mcmc.PROPOSAL_FILE_ARG, some "prop.nc"⟩]).SD
      = 0.0 := by
    rw [mcmc.mcmc_parse_SD]; rfl
  have hq : (mcmc.main demoLib [⟨mcmc.PROPOSAL_FILE_ARG, some "prop.nc"⟩]).sample.qCov 0 0
      = 1080863910568919 / 2 ^ 49 := by
    have hne : (mcmc.parse demoLib.atof
        [⟨mcmc.PROPOSAL_FILE_ARG, some "prop.nc"⟩]).PROPOSAL_FILE ≠ "" := by decide
    have e : demoLib.toReal (mcmc.defaultSD (demoLib.getNetSize .P_NODE))
        = 1080863910568919 / 2 ^ 49 := defaultSD_3
    simp only [mcmc.main, mcmc.proposalCov, if_pos hne, mcmc.sdOf, hd, matrix_scal,
      if_pos (le_refl (0.0 : ℚ)), e]
    norm_num [demoLib]
  refine ⟨hf, hs, rfl, hq, ?_⟩
  rw [hq, hs]
  norm_num [matrix_scal, demoLib]

/-- C4 (amended): in the `mcmc` driver, for every argument vector, the initial
proposal covariance is: without a proposal file, `SCALE` (the value of the
scale option, 0.01 without one) times the covariance assembled from the blocks
of the three priors; with a proposal file, `SD` (the variance factor after its
defaulting, `sdOf`) times the covariance read from that file, `SCALE` playing
no part. -/
theorem C4_proposal_covariance {Buf Rng : Type} (lib : Lib Buf Rng)
    (rs : List GetoptResult) :
    ((mcmc.parse lib.atof rs).PROPOSAL_FILE = "" →
      (mcmc.main lib rs).sample.qCov
        = matrix_scal (realOption lib.atof mcmc.SCALE_ARG 0.01 rs) (mcmc.priorBlocks lib)) ∧
    ((mcmc.parse lib.atof rs).PROPOSAL_FILE ≠ "" →
      (mcmc.main lib rs).sample.qCov
        = matrix_scal
            (mcmc.sdOf lib.toReal (lib.getNetSize .P_NODE) (mcmc.parse lib.atof rs))
            (lib.readSmoothCov (mcmc.parse lib.atof rs).PROPOSAL_FILE) ∧
      (mcmc.main lib rs).sample.qCov
        = matrix_scal (mcmc.main lib rs).sample.SD
            (lib.readSmoothCov (mcmc.parse lib.atof rs).PROPOSAL_FILE)) := by
  constructor
  · intro h
    simp only [mcmc.main, mcmc.proposalCov, h, ne_eq, not_true_eq_false, if_false,
      mcmc.mcmc_parse_SCALE]
  · intro h
    simp only [mcmc.main, mcmc.proposalCov, h, ne_eq, not_false_eq_true, if_true, and_self]

/-- C4 (amended) at two argument vectors: without a proposal file and with the
scale 3 the entry (0, 0) of the proposal covariance is 3 times that of the
D-node prior; with the proposal file `prop.nc` and the variance factor 2 it is
2 times that of the covariance read from the file, whatever the scale. -/
theorem C4_proposal_covariance_witness :
    (mcmc.main demoLib [⟨mcmc.SCALE_ARG, some "3"⟩]).sample.qCov 0 0
      = 3 * demoLib.priorCov .D_NODE 0 0 ∧
    (mcmc.main demoLib [⟨mcmc.PROPOSAL_FILE_ARG, some "prop.nc"⟩, ⟨mcmc.SD_ARG, some "2"⟩,
        ⟨mcmc.SCALE_ARG, some "3"⟩]).sample.qCov 0 0
      = 2 * demoLib.readSmoothCov "prop.nc" 0 0 := by
  constructor
  · rw [(C4_proposal_covariance demoLib [⟨mcmc.SCALE_ARG, some "3"⟩]).1 (by decide)]
    simp [matrix_scal, mcmc.priorBlocks, assignSubrange, realOption, lastOpt, demoLib]
    decide
  · rw [((C4_proposal_covariance demoLib
      [⟨mcmc.PROPOSAL_FILE_ARG, some "prop.nc"⟩, ⟨mcmc.SD_ARG, some "2"⟩,
        ⟨mcmc.SCALE_ARG, some "3"⟩]).2 (by decide)).1]
    have hd : (mcmc.parse demoLib.atof [⟨mcmc.PROPOSAL_FILE_ARG, some "prop.nc"⟩,
        ⟨mcmc.SD_ARG, some "2"⟩, ⟨mcmc.SCALE_ARG, some "3"⟩]).SD = 2 := by
      rw [mcmc.mcmc_parse_SD]
      simp [realOption, lastOpt, demoLib]
      decide
    have hf : (mcmc.parse demoLib.atof [⟨mcmc.PROPOSAL_FILE_ARG, some "prop.nc"⟩,
        ⟨mcmc.SD_ARG, some "2"⟩, ⟨mcmc.SCALE_ARG, some "3"⟩]).PROPOSAL_FILE = "prop.nc" := by
      decide
    rw [hf]
    norm_num [matrix_scal, mcmc.sdOf, hd]

/-- C10 (the claim as it stands fails): for a model of eleven parameters and no
sd option, the factor handed to the sampler is the `double` value of
`2.4*2.4/11`, which is 4716497064300737 / 2 ^ 53.  It is not the number
2.4 * 2.4 / 11, and eleven times it is not 5.76, neither exactly nor when the
product is computed in `double`: that product is 6485183463413513 / 2 ^ 50
(5.759999999999999), one unit in the last place below the `double` of 5.76. -/
theorem C10_counterexample :
    elevenLib.getNetSize .P_NODE = 11 ∧
    lastOpt mcmc.SD_ARG [] = none ∧
    (mcmc.main elevenLib []).sample.SD = 4716497064300737 / 2 ^ 53 ∧
    (mcmc.main elevenLib []).sample.SD ≠ 2.4 * 2.4 / 11 ∧
    (mcmc.main elevenLib []).sample.SD * 11 ≠ 5.76 ∧
    roundDouble ((mcmc.main elevenLib []).sample.SD * 11) = 6485183463413513 / 2 ^ 50 ∧
    roundDouble 5.76 = 6485183463413514 / 2 ^ 50 ∧
    roundDouble ((mcmc.main elevenLib []).sample.SD * 11) ≠ roundDouble 5.76 := by
  have hSD : (mcmc.main elevenLib []).sample.SD = 4716497064300737 / 2 ^ 53 := by
    have e : elevenLib.toReal (mcmc.defaultSD (elevenLib.getNetSize .P_NODE))
        = 4716497064300737 / 2 ^ 53 := defaultSD_11
    have hd : (mcmc.parse elevenLib.atof []).SD = 0.0 := rfl
    simp only [mcmc.main, mcmc.sdOf, hd, if_pos (le_refl (0.0 : ℚ)), e]
  have hp : roundDouble ((4716497064300737 / 2 ^ 53 : ℚ) * 11)
      = 6485183463413513 / 2 ^ 50 := by
    rw [roundDouble_eq _ 2 6485183463413513 (by norm_num [abs_of_pos])
      (by norm_num [abs_of_pos]) (by rw [abs_lt]; constructor <;> norm_num)]
    norm_num
  have h576 : roundDouble 5.76 = 6485183463413514 / 2 ^ 50 := by
    rw [roundDouble_5_76]; norm_num
  refine ⟨rfl, rfl, hSD, ?_, ?_, ?_, h576, ?_⟩
  · rw [hSD]; norm_num
  · rw [hSD]; norm_num
  · rw [hSD, hp]
  · rw [hSD, hp, h576]; norm_num

/-- C10 (amended): in the `mcmc` driver with a model of `NP > 0` parameters, for
every argument vector, the variance factor handed to the sampler is, when the
sd option is absent or its value is at most 0, the value of the expression
`2.4*2.4/NP` computed in `double` and converted to `real`, and it is the value
of the sd option when that is positive.  The `double` value is the `double` of
5.76 divided by `NP` and rounded, and `NP` times it is 5.76 up to rounding: the
two differ by at most 5.76 / 2 ^ 52.  When `real` is `double`, so that the
conversion leaves a `double` as it is, the same bound holds for the factor
handed to the sampler when the sd option is absent. -/
theorem C10_variance_factor_rounded {Buf Rng : Type} (lib : Lib Buf Rng)
    (rs : List GetoptResult) (hNP : 0 < lib.getNetSize .P_NODE) :
    (lastOpt mcmc.SD_ARG rs = none →
      (mcmc.main lib rs).sample.SD
        = lib.toReal (mcmc.defaultSD (lib.getNetSize .P_NODE))) ∧
    (realOption lib.atof mcmc.SD_ARG 0.0 rs ≤ 0 →
      (mcmc.main lib rs).sample.SD
        = lib.toReal (mcmc.defaultSD (lib.getNetSize .P_NODE))) ∧
    (0 < realOption lib.atof mcmc.SD_ARG 0.0 rs →
      (mcmc.main lib rs).sample.SD = realOption lib.atof mcmc.SD_ARG 0.0 rs) ∧
    mcmc.defaultSD (lib.getNetSize .P_NODE)
      = roundDouble (roundDouble 5.76 / (lib.getNetSize .P_NODE : ℚ)) ∧
    |mcmc.defaultSD (lib.getNetSize .P_NODE) * (lib.getNetSize .P_NODE : ℚ) - 5.76|
      ≤ 5.76 / 2 ^ 52 ∧
    ((∀ x, lib.toReal (roundDouble x) = roundDouble x) → lastOpt mcmc.SD_ARG rs = none →
      |(mcmc.main lib rs).sample.SD * (lib.getNetSize .P_NODE : ℚ) - 5.76|
        ≤ 5.76 / 2 ^ 52) := by
  have z : (0.0 : ℚ) = 0 := by norm_num
  have hSD : (mcmc.main lib rs).sample.SD
      = if realOption lib.atof mcmc.SD_ARG 0.0 rs ≤ 0.0
        then lib.toReal (mcmc.defaultSD (lib.getNetSize .P_NODE))
        else realOption lib.atof mcmc.SD_ARG 0.0 rs := by
    simp only [mcmc.main, mcmc.sdOf, mcmc.mcmc_parse_SD]
  refine ⟨?_, ?_, ?_, ?_, defaultSD_mul_sub_le _ hNP, ?_⟩
  · intro habs
    have h0 : realOption lib.atof mcmc.SD_ARG 0.0 rs = 0.0 := by
      simp only [realOption, habs]
    rw [hSD, h0, if_pos le_rfl]
  · intro hle
    rw [hSD, if_pos (le_of_le_of_eq hle z.symm)]
  · intro hpos
    rw [hSD, if_neg (fun h => absurd (le_of_le_of_eq h z) (not_le.mpr hpos))]
  · unfold mcmc.defaultSD
    rw [roundDouble_product, roundDouble_5_76]
  · intro hid habs
    have h0 : realOption lib.atof mcmc.SD_ARG 0.0 rs = 0.0 := by
      simp only [realOption, habs]
    have hfix : lib.toReal (mcmc.defaultSD (lib.getNetSize .P_NODE))
        = mcmc.defaultSD (lib.getNetSize .P_NODE) := hid _
    rw [hSD, h0, if_pos le_rfl, hfix]
    exact defaultSD_mul_sub_le _ hNP

/-- C10 (amended) at an argument vector: with three parameters, `real` being
`double`, and no sd option, the factor handed to the sampler is
1080863910568919 / 2 ^ 49, the `double` nearest to 1.92, and three times it is
within 5.76 / 2 ^ 52 of 5.76. -/
theorem C10_variance_factor_rounded_witness :
    0 < demoLib.getNetSize .P_NODE ∧
    (mcmc.main demoLib []).sample.SD = 1080863910568919 / 2 ^ 49 ∧
    |(mcmc.main demoLib []).sample.SD * 3 - 5.76| ≤ 5.76 / 2 ^ 52 :=
  ⟨by decide,
   ((C10_variance_factor_rounded demoLib [] (by decide)).1 rfl).trans defaultSD_3,
   (C10_variance_factor_rounded demoLib [] (by decide)).2.2.2.2.2 (fun _ => rfl) rfl⟩

/-- C5 (the claim as it stands fails): with the particle count 0 the `pf`
driver, and with the particle count -3 the `mcmc` driver, do not fail at
startup: each allocates the state with that count, opens its buffers, runs the
method and returns 0.  The same holds for `pf` with the resampler name `bogus`,
which is none of the four names. -/
theorem C5_counterexample :
    (pf.main demoLib [⟨shortOpt 'P', some "0"⟩] 0).stateRows = 0 ∧
    ¬ failsAtStartup (pf.main demoLib [⟨shortOpt 'P', some "0"⟩] 0).calls
        (pf.main demoLib [⟨shortOpt 'P', some "0"⟩] 0).exit ∧
    (mcmc.main demoLib [⟨shortOpt 'P', some "-3"⟩]).sample.filter.outFilter.size1 = -3 ∧
    ¬ failsAtStartup (mcmc.main demoLib [⟨shortOpt 'P', some "-3"⟩]).calls
        (mcmc.main demoLib [⟨shortOpt 'P', some "-3"⟩]).exit ∧
    strategyOfName "bogus" = none ∧
    ¬ failsAtStartup (pf.main demoLib [⟨pf.RESAMPLER_ARG, some "bogus"⟩] 0).calls
        (pf.main demoLib [⟨pf.RESAMPLER_ARG, some "bogus"⟩] 0).exit := by
  refine ⟨?_, ?_, ?_, ?_, ?_, ?_⟩ <;> decide

/-- C5 (amended): the `pf` and `mcmc` drivers make no check of the particle
count.  For every argument vector, a count of zero or less included, the first
library calls allocate the state with the parsed value of `-P` (1024 without
one), the driver goes on to run the method and returns 0: no run fails at
startup. -/
theorem C5_no_check_of_particle_count {Buf Rng : Type} (lib : Lib Buf Rng)
    (rs : List GetoptResult) (elapsed : ℚ) :
    ((pf.main lib rs elapsed).calls.take 3
        = [ .bi_ode_init (pf.parse lib.atof rs).H (pf.parse lib.atof rs).ATOLER
              (pf.parse lib.atof rs).RTOLER,
            .newStatic (some (pf.thetaRows (pf.parse lib.atof rs))),
            .newState (intOption (shortOpt 'P') 1024 rs) ] ∧
      Call.run ∈ (pf.main lib rs elapsed).calls ∧
      (pf.main lib rs elapsed).exit = 0 ∧
      ¬ failsAtStartup (pf.main lib rs elapsed).calls (pf.main lib rs elapsed).exit) ∧
    ((mcmc.main lib rs).calls.take 4
        = [ .bi_ode_init (mcmc.parse lib.atof rs).H (mcmc.parse lib.atof rs).ATOLER
              (mcmc.parse lib.atof rs).RTOLER,
            .newRandom (mcmc.parse lib.atof rs).SEED,
            .newStatic none,
            .newState (intOption (shortOpt 'P') 1024 rs) ] ∧
      Call.run ∈ (mcmc.main lib rs).calls ∧
      (mcmc.main lib rs).exit = 0 ∧
      ¬ failsAtStartup (mcmc.main lib rs).calls (mcmc.main lib rs).exit) := by
  refine ⟨⟨?_, ?_, rfl, ?_⟩, ⟨?_, ?_, rfl, ?_⟩⟩
  · simp [pf.main, pf.calls, pf.pf_parse_P]
  · simp [pf.main, pf.calls]
  · intro h
    exact h.1 rfl
  · simp [mcmc.main, mcmc.calls, mcmc.mcmc_parse_P]
  · simp [mcmc.main, mcmc.calls]
  · intro h
    exact h.1 rfl

/-- C5 (amended) at an argument vector: with the particle count -3 the third
library call of `pf` allocates a state of -3 rows. -/
theorem C5_no_check_of_particle_count_witness :
    (pf.main demoLib [⟨shortOpt 'P', some "-3"⟩] 0).calls.take 3
      = [.bi_ode_init 1.0 1.0e-3 1.0e-3, .newStatic (some 1), .newState (-3)] ∧
    (pf.main demoLib [⟨shortOpt 'P', some "-3"⟩] 0).exit = 0 :=
  ⟨(C5_no_check_of_particle_count demoLib [⟨shortOpt 'P', some "-3"⟩] 0).1.1,
   (C5_no_check_of_particle_count demoLib [⟨shortOpt 'P', some "-3"⟩] 0).1.2.2.1⟩

/-- The `pf` driver constructs one generator, from `SEED`. -/
theorem pf_calls_newRandom {Buf Rng : Type} (lib : Lib Buf Rng) (o : pf.Opts) :
    (pf.calls lib o).filter Call.isNewRandom = [.newRandom o.SEED] := by
  unfold pf.calls pf.outBuffer
  by_cases h1 : o.FORCE_FILE = "" <;> by_cases h2 : o.INIT_FILE = "" <;>
    cases h3 : o.INCLUDE_PARAMETERS <;> cases h4 : o.OUTPUT <;> cases h5 : o.TIME <;>
    simp [h1, h2, Call.isNewRandom]

/-- The `mcmc` driver constructs one generator, from `SEED`. -/
theorem mcmc_calls_newRandom {Buf Rng : Type} (lib : Lib Buf Rng) (o : mcmc.Opts) :
    (mcmc.calls lib o).filter Call.isNewRandom = [.newRandom o.SEED] := by
  unfold mcmc.calls
  by_cases h1 : o.FORCE_FILE = "" <;> by_cases h2 : o.INIT_FILE = "" <;>
    by_cases h3 : o.PROPOSAL_FILE = "" <;>
    simp [h1, h2, h3, Call.isNewRandom]

/-- A prior sample of `rowsLib` depends on its target through the rows alone. -/
theorem rowsLib_samples (node : NodeType) (rng : Int × Nat) (b b' : Int × List String)
    (h : b.1 = b'.1) : rowsLib.samples node rng b = rowsLib.samples node rng b' := by
  simp only [rowsLib, h]

/-- A read of the simulation file of `rowsLib` depends on its target through the
rows alone. -/
theorem rowsLib_readState (file : String) (node : NodeType) (k : Int)
    (b b' : Int × List String) (h : b.1 = b'.1) :
    rowsLib.readState file node k b = rowsLib.readState file node k b' := by
  simp only [rowsLib, h]

/-- A read of the init file of `rowsLib` depends on its target through the rows
alone. -/
theorem rowsLib_read (file : String) (ns : Int) (node : NodeType)
    (b b' : Int × List String) (h : b.1 = b'.1) :
    rowsLib.read file ns node b = rowsLib.read file ns node b' := by
  simp only [rowsLib, h]

/-- The state that `pf` hands to the filter does not depend on what the storage
held when it was constructed, when the writes fill their target. -/
theorem pf_stateAtFilter_storage {Buf Rng σ : Type} (lib : Lib Buf Rng) (shape : Buf → σ)
    (o : pf.Opts) (newStatic' : Option Int → Buf) (newState' : Int → NodeType → Buf)
    (newCov' : Nat → Mat)
    (hState : ∀ rows node, shape (newState' rows node) = shape (lib.newState rows node))
    (hread : ∀ file ns node b b', shape b = shape b' →
      lib.read file ns node b = lib.read file ns node b')
    (hS : ∀ node rng b b', shape b = shape b' →
      lib.samples node rng b = lib.samples node rng b') :
    pf.stateAtFilter (lib.withStorage newStatic' newState' newCov') o
      = pf.stateAtFilter lib o := by
  have hD := fun rng => hS .D_NODE rng _ _ (hState o.P .D_NODE)
  have hC := fun rng => hS .C_NODE rng _ _ (hState o.P .C_NODE)
  simp only [pf.stateAtFilter, Lib.withStorage, hD, hC,
    hread _ _ .D_NODE _ _ (hState o.P .D_NODE), hread _ _ .C_NODE _ _ (hState o.P .C_NODE)]

/-- The generator that `pf` hands to the filter does not depend on what the
storage held when it was constructed, when the writes fill their target. -/
theorem pf_rngAtFilter_storage {Buf Rng σ : Type} (lib : Lib Buf Rng) (shape : Buf → σ)
    (o : pf.Opts) (newStatic' : Option Int → Buf) (newState' : Int → NodeType → Buf)
    (newCov' : Nat → Mat)
    (hStatic : ∀ rows, shape (newStatic' rows) = shape (lib.newStatic rows))
    (hState : ∀ rows node, shape (newState' rows node) = shape (lib.newState rows node))
    (hS : ∀ node rng b b', shape b = shape b' →
      lib.samples node rng b = lib.samples node rng b') :
    pf.rngAtFilter (lib.withStorage newStatic' newState' newCov') o
      = pf.rngAtFilter lib o := by
  have hD := fun rng => hS .D_NODE rng _ _ (hState o.P .D_NODE)
  have hC := fun rng => hS .C_NODE rng _ _ (hState o.P .C_NODE)
  have hP := fun rng => hS .P_NODE rng _ _ (hStatic (some (pf.thetaRows o)))
  simp only [pf.rngAtFilter, Lib.withStorage, hD, hC, hP]

/-- The static parameters that `pf` hands to the filter do not depend on what
the storage held when it was constructed, when the driver writes them and the
writes fill their target. -/
theorem pf_thetaAtFilter_storage {Buf Rng σ : Type} (lib : Lib Buf Rng) (shape : Buf → σ)
    (o : pf.Opts) (newStatic' : Option Int → Buf) (newState' : Int → NodeType → Buf)
    (newCov' : Nat → Mat)
    (hStatic : ∀ rows, shape (newStatic' rows) = shape (lib.newStatic rows))
    (hState : ∀ rows node, shape (newState' rows node) = shape (lib.newState rows node))
    (hread : ∀ file ns node b b', shape b = shape b' →
      lib.read file ns node b = lib.read file ns node b')
    (hS : ∀ node rng b b', shape b = shape b' →
      lib.samples node rng b = lib.samples node rng b')
    (hw : o.INIT_FILE ≠ "" ∨ o.INCLUDE_PARAMETERS = true) :
    pf.thetaAtFilter (lib.withStorage newStatic' newState' newCov') o
      = pf.thetaAtFilter lib o := by
  have hD := fun rng => hS .D_NODE rng _ _ (hState o.P .D_NODE)
  have hC := fun rng => hS .C_NODE rng _ _ (hState o.P .C_NODE)
  have hP := fun rng => hS .P_NODE rng _ _ (hStatic (some (pf.thetaRows o)))
  have hr := hread o.INIT_FILE o.INIT_NS .P_NODE _ _ (hStatic (some (pf.thetaRows o)))
  by_cases hi : o.INIT_FILE = ""
  · have hp : o.INCLUDE_PARAMETERS = true := hw.resolve_left (fun h => h hi)
    simp only [pf.thetaAtFilter, Lib.withStorage, hi, hp, hD, hC, hP, ne_eq,
      not_true_eq_false, if_false, if_true]
  · simp only [pf.thetaAtFilter, Lib.withStorage, hi, hr, ne_eq, not_false_eq_true, if_true]

/-- The entries of the covariance assembled from the priors that lie in the
three blocks do not depend on what `q.cov()` held when it was constructed. -/
theorem mcmc_priorBlocks_storage {Buf Rng : Type} (lib : Lib Buf Rng)
    (newStatic' : Option Int → Buf) (newState' : Int → NodeType → Buf) (newCov' : Nat → Mat)
    (i j : Nat)
    (h : inPriorBlocks (lib.getNetSize .D_NODE) (lib.getNetSize .C_NODE)
      (lib.getNetSize .P_NODE) i j) :
    mcmc.priorBlocks (lib.withStorage newStatic' newState' newCov') i j
      = mcmc.priorBlocks lib i j := by
  simp only [mcmc.priorBlocks, assignSubrange, Lib.withStorage]
  rcases h with ⟨h1, h2⟩ | ⟨h1, h2, h3, h4⟩ | ⟨h1, h2, h3, h4⟩
  · have a1 : ¬ (lib.getNetSize .D_NODE + lib.getNetSize .C_NODE ≤ i) := by omega
    have a2 : ¬ (lib.getNetSize .D_NODE ≤ i) := by omega
    simp only [a1, a2, false_and, if_false, Nat.zero_le, true_and, zero_add, h1, h2, and_self,
      if_true]
  · have a1 : ¬ (lib.getNetSize .D_NODE + lib.getNetSize .C_NODE ≤ i) := by omega
    simp only [a1, false_and, if_false, h1, h2, h3, h4, and_self, if_true]
  · simp only [h1, h2, h3, h4, and_self, if_true]

/-- C6 (the claim as it stands fails): two runs of the `pf` driver on the same
argument vector, here the time option alone, with the same library and files
and the same seed, in which the clock reads 1 and 2 when the filter is done,
write different things to standard output. -/
theorem C6_counterexample :
    (pf.parse demoLib.atof [⟨pf.TIME_ARG, some "1"⟩]).SEED = 0 ∧
    (pf.main demoLib [⟨pf.TIME_ARG, some "1"⟩] 1).stdout = [1] ∧
    (pf.main demoLib [⟨pf.TIME_ARG, some "1"⟩] 2).stdout = [2] ∧
    (pf.main demoLib [⟨pf.TIME_ARG, some "1"⟩] 1).stdout
      ≠ (pf.main demoLib [⟨pf.TIME_ARG, some "1"⟩] 2).stdout := by
  have h1 : (pf.main demoLib [⟨pf.TIME_ARG, some "1"⟩] 1).stdout = [1] := rfl
  have h2 : (pf.main demoLib [⟨pf.TIME_ARG, some "1"⟩] 2).stdout = [2] := rfl
  refine ⟨by decide, h1, h2, ?_⟩
  rw [h1, h2]
  norm_num

/-- C6 (amended): take two runs of the `pf` driver, and two of the `mcmc`
driver, on the same argument vector with the same files and library, in which
the clock readings differ and newly constructed storage (`theta`, `s`, the
covariance of `q`) holds other values of the same shape in the second run than
in the first.  The library writes fill their target: a read of the init file
(`hread`) and a prior sample (`hS`) depend on the target through its shape
alone.  Then the two runs make the same library calls and hand the same things
to the filter or sampler, except for storage that the driver hands on without
having written it: in `pf` the static parameters when no init file is given and
the parameters are not included; in `mcmc` the state, the static parameters
when no init file is given, and the entries of the proposal covariance outside
the three prior blocks when no proposal file is given.  Standard output of
`pf` is the same without the time option; with it, it is the clock reading.
Each run constructs exactly one random number generator, seeded with the value
of the seed option (0 without one); the filter receives it as seeded when an
init file is given, and the sampler after the one draw of the initial chain
state. -/
theorem C6_reproducible_up_to_clock_and_storage {Buf Rng σ : Type} (lib : Lib Buf Rng)
    (shape : Buf → σ) (rs : List GetoptResult) (elapsed₁ elapsed₂ : ℚ)
    (newStatic' : Option Int → Buf) (newState' : Int → NodeType → Buf) (newCov' : Nat → Mat)
    (hStatic : ∀ rows, shape (newStatic' rows) = shape (lib.newStatic rows))
    (hState : ∀ rows node, shape (newState' rows node) = shape (lib.newState rows node))
    (hread : ∀ file ns node b b', shape b = shape b' →
      lib.read file ns node b = lib.read file ns node b')
    (hS : ∀ node rng b b', shape b = shape b' →
      lib.samples node rng b = lib.samples node rng b') :
    ((pf.main (lib.withStorage newStatic' newState' newCov') rs elapsed₂).calls
        = (pf.main lib rs elapsed₁).calls ∧
      (pf.main (lib.withStorage newStatic' newState' newCov') rs elapsed₂).exit
        = (pf.main lib rs elapsed₁).exit ∧
      (pf.main (lib.withStorage newStatic' newState' newCov') rs elapsed₂).filter.mode
        = (pf.main lib rs elapsed₁).filter.mode ∧
      (pf.main (lib.withStorage newStatic' newState' newCov') rs elapsed₂).filter.rng
        = (pf.main lib rs elapsed₁).filter.rng ∧
      (pf.main (lib.withStorage newStatic' newState' newCov') rs elapsed₂).filter.inForce
        = (pf.main lib rs elapsed₁).filter.inForce ∧
      (pf.main (lib.withStorage newStatic' newState' newCov') rs elapsed₂).filter.inObs
        = (pf.main lib rs elapsed₁).filter.inObs ∧
      (pf.main (lib.withStorage newStatic' newState' newCov') rs elapsed₂).filter.out
        = (pf.main lib rs elapsed₁).filter.out ∧
      (pf.main (lib.withStorage newStatic' newState' newCov') rs elapsed₂).filter.T
        = (pf.main lib rs elapsed₁).filter.T ∧
      (pf.main (lib.withStorage newStatic' newState' newCov') rs elapsed₂).filter.s
        = (pf.main lib rs elapsed₁).filter.s ∧
      (pf.main (lib.withStorage newStatic' newState' newCov') rs elapsed₂).filter.resam
        = (pf.main lib rs elapsed₁).filter.resam ∧
      ((pf.parse lib.atof rs).INIT_FILE ≠ "" ∨ (pf.parse lib.atof rs).INCLUDE_PARAMETERS = true →
        (pf.main (lib.withStorage newStatic' newState' newCov') rs elapsed₂).filter.theta
          = (pf.main lib rs elapsed₁).filter.theta) ∧
      ((pf.parse lib.atof rs).INIT_FILE = "" →
        (pf.parse lib.atof rs).INCLUDE_PARAMETERS = false →
        (pf.main lib rs elapsed₁).filter.theta = lib.newStatic (some 1) ∧
        (pf.main (lib.withStorage newStatic' newState' newCov') rs elapsed₂).filter.theta
          = newStatic' (some 1)) ∧
      ((pf.parse lib.atof rs).TIME = false →
        (pf.main (lib.withStorage newStatic' newState' newCov') rs elapsed₂).stdout
          = (pf.main lib rs elapsed₁).stdout) ∧
      ((pf.parse lib.atof rs).TIME = true →
        (pf.main lib rs elapsed₁).stdout = [elapsed₁] ∧
        (pf.main (lib.withStorage newStatic' newState' newCov') rs elapsed₂).stdout
          = [elapsed₂]) ∧
      (pf.main lib rs elapsed₁).calls.filter Call.isNewRandom
        = [.newRandom (intOption pf.SEED_ARG 0 rs)] ∧
      ((pf.parse lib.atof rs).INIT_FILE ≠ "" →
        (pf.main lib rs elapsed₁).filter.rng
          = lib.newRandom (intOption pf.SEED_ARG 0 rs))) ∧
    ((mcmc.main (lib.withStorage newStatic' newState' newCov') rs).calls
        = (mcmc.main lib rs).calls ∧
      (mcmc.main (lib.withStorage newStatic' newState' newCov') rs).exit
        = (mcmc.main lib rs).exit ∧
      (mcmc.main (lib.withStorage newStatic' newState' newCov') rs).sample.out
        = (mcmc.main lib rs).sample.out ∧
      (mcmc.main (lib.withStorage newStatic' newState' newCov') rs).sample.rng
        = (mcmc.main lib rs).sample.rng ∧
      (mcmc.main (lib.withStorage newStatic' newState' newCov') rs).sample.x
        = (mcmc.main lib rs).sample.x ∧
      (mcmc.main (lib.withStorage newStatic' newState' newCov') rs).sample.C
        = (mcmc.main lib rs).sample.C ∧
      (mcmc.main (lib.withStorage newStatic' newState' newCov') rs).sample.T
        = (mcmc.main lib rs).sample.T ∧
      (mcmc.main (lib.withStorage newStatic' newState' newCov') rs).sample.filter
        = (mcmc.main lib rs).sample.filter ∧
      (mcmc.main (lib.withStorage newStatic' newState' newCov') rs).sample.resam
        = (mcmc.main lib rs).sample.resam ∧
      (mcmc.main (lib.withStorage newStatic' newState' newCov') rs).sample.SD
        = (mcmc.main lib rs).sample.SD ∧
      (mcmc.main (lib.withStorage newStatic' newState' newCov') rs).sample.A
        = (mcmc.main lib rs).sample.A ∧
      ((mcmc.parse lib.atof rs).INIT_FILE ≠ "" →
        (mcmc.main (lib.withStorage newStatic' newState' newCov') rs).sample.theta
          = (mcmc.main lib rs).sample.theta) ∧
      ((mcmc.parse lib.atof rs).INIT_FILE = "" →
        (mcmc.main lib rs).sample.theta = lib.newStatic none ∧
        (mcmc.main (lib.withStorage newStatic' newState' newCov') rs).sample.theta
          = newStatic' none) ∧
      ((mcmc.main lib rs).sample.s.D = lib.newState (intOption (shortOpt 'P') 1024 rs) .D_NODE ∧
        (mcmc.main lib rs).sample.s.C = lib.newState (intOption (shortOpt 'P') 1024 rs) .C_NODE ∧
        (mcmc.main (lib.withStorage newStatic' newState' newCov') rs).sample.s.D
          = newState' (intOption (shortOpt 'P') 1024 rs) .D_NODE ∧
        (mcmc.main (lib.withStorage newStatic' newState' newCov') rs).sample.s.C
          = newState' (intOption (shortOpt 'P') 1024 rs) .C_NODE) ∧
      ((mcmc.parse lib.atof rs).PROPOSAL_FILE ≠ "" →
        (mcmc.main (lib.withStorage newStatic' newState' newCov') rs).sample.qCov
          = (mcmc.main lib rs).sample.qCov) ∧
      ((mcmc.parse lib.atof rs).PROPOSAL_FILE = "" →
        ∀ i j, inPriorBlocks (lib.getNetSize .D_NODE) (lib.getNetSize .C_NODE)
            (lib.getNetSize .P_NODE) i j →
          (mcmc.main (lib.withStorage newStatic' newState' newCov') rs).sample.qCov i j
            = (mcmc.main lib rs).sample.qCov i j) ∧
      (mcmc.main lib rs).calls.filter Call.isNewRandom
        = [.newRandom (intOption mcmc.SEED_ARG 0 rs)] ∧
      (mcmc.main lib rs).sample.rng
        = (lib.pdfSample (mcmc.proposalFile (mcmc.parse lib.atof rs))
            (lib.newRandom (intOption mcmc.SEED_ARG 0 rs))).2) := by
  have hatof : (lib.withStorage newStatic' newState' newCov').atof = lib.atof := rfl
  refine ⟨⟨rfl, rfl, rfl, ?_, rfl, rfl, rfl, rfl, ?_, rfl, ?_, ?_, ?_, ?_, ?_, ?_⟩,
    ⟨rfl, rfl, rfl, rfl, rfl, rfl, rfl, rfl, rfl, rfl, rfl, ?_, ?_, ?_, ?_, ?_, ?_, ?_⟩⟩
  · exact pf_rngAtFilter_storage lib shape _ _ _ _ hStatic hState hS
  · exact pf_stateAtFilter_storage lib shape _ _ _ _ hState hread hS
  · intro hw
    exact pf_thetaAtFilter_storage lib shape _ _ _ _ hStatic hState hread hS hw
  · intro hi hp
    constructor
    · simp only [pf.main, pf.thetaAtFilter, pf.thetaRows, hi, hp, ne_eq, not_true_eq_false,
        if_false, Bool.false_eq_true]
    · simp only [pf.main, hatof, pf.thetaAtFilter, pf.thetaRows, hi, hp, ne_eq,
        not_true_eq_false, if_false, Bool.false_eq_true, Lib.withStorage]
  · intro ht
    simp only [pf.main, hatof, ht, Bool.false_eq_true, if_false]
  · intro ht
    constructor
    · simp only [pf.main, ht, if_true]
    · simp only [pf.main, hatof, ht, if_true]
  · simp only [pf.main, pf_calls_newRandom, pf.pf_parse_SEED]
  · intro h
    simp only [pf.main, pf.rngAtFilter, if_pos h, pf.pf_parse_SEED]
  · intro hi
    have hr := hread (mcmc.parse lib.atof rs).INIT_FILE (mcmc.parse lib.atof rs).INIT_NS
      .P_NODE _ _ (hStatic none)
    simp only [mcmc.main, hatof, Lib.withStorage, hi, ne_eq, not_false_eq_true, if_true, hr]
  · intro hi
    constructor
    · simp only [mcmc.main, hi, ne_eq, not_true_eq_false, if_false]
    · simp only [mcmc.main, hatof, Lib.withStorage, hi, ne_eq, not_true_eq_false, if_false]
  · refine ⟨?_, ?_, ?_, ?_⟩
    · simp only [mcmc.main, mcmc.mcmc_parse_P]
    · simp only [mcmc.main, mcmc.mcmc_parse_P]
    · simp only [mcmc.main, hatof, Lib.withStorage, mcmc.mcmc_parse_P]
    · simp only [mcmc.main, hatof, Lib.withStorage, mcmc.mcmc_parse_P]
  · intro hp
    simp only [mcmc.main, hatof, mcmc.proposalCov, if_pos hp]
    rfl
  · intro hp i j hb
    have e := mcmc_priorBlocks_storage lib newStatic' newState' newCov' i j hb
    simp only [mcmc.main, hatof, mcmc.proposalCov, hp, ne_eq, not_true_eq_false, if_false,
      matrix_scal, e]
  · simp only [mcmc.main, mcmc_calls_newRandom, mcmc.mcmc_parse_SEED]
  · simp only [mcmc.main, mcmc.mcmc_parse_SEED]

/-- C6 (amended) at two argument vectors, with the library `rowsLib`, whose
writes fill their target: with the seed 7 and the time option, the clock reading
1 and then 2, and storage that holds `junk` when constructed in the second run,
the `pf` driver hands the filter the same state and the same generator in both
runs, and its standard output is the clock reading; with the seed 7 the `mcmc`
driver hands the sampler the state as constructed. -/
theorem C6_reproducible_up_to_clock_and_storage_witness :
    (pf.main (rowsLib.withStorage (fun rows => (rows.getD 1, ["junk"]))
        (fun rows _ => (rows, ["junk"])) (fun _ _ _ => 7))
      [⟨pf.SEED_ARG, some "7"⟩, ⟨pf.TIME_ARG, some "1"⟩] 2).filter.s
      = (pf.main rowsLib [⟨pf.SEED_ARG, some "7"⟩, ⟨pf.TIME_ARG, some "1"⟩] 1).filter.s ∧
    (pf.main (rowsLib.withStorage (fun rows => (rows.getD 1, ["junk"]))
        (fun rows _ => (rows, ["junk"])) (fun _ _ _ => 7))
      [⟨pf.SEED_ARG, some "7"⟩, ⟨pf.TIME_ARG, some "1"⟩] 2).filter.rng
      = (pf.main rowsLib [⟨pf.SEED_ARG, some "7"⟩, ⟨pf.TIME_ARG, some "1"⟩] 1).filter.rng ∧
    (pf.main rowsLib [⟨pf.SEED_ARG, some "7"⟩, ⟨pf.TIME_ARG, some "1"⟩] 1).stdout = [1] ∧
    (pf.main rowsLib [⟨pf.SEED_ARG, some "7"⟩, ⟨pf.TIME_ARG, some "1"⟩] 1).calls.filter Call.isNewRandom
      = [.newRandom 7] ∧
    (mcmc.main (rowsLib.withStorage (fun rows => (rows.getD 1, ["junk"]))
        (fun rows _ => (rows, ["junk"])) (fun _ _ _ => 7))
      [⟨mcmc.SEED_ARG, some "7"⟩]).sample.s.D = (1024, ["junk"]) :=
  ⟨(C6_reproducible_up_to_clock_and_storage rowsLib Prod.fst
      [⟨pf.SEED_ARG, some "7"⟩, ⟨pf.TIME_ARG, some "1"⟩] 1 2
      (fun rows => (rows.getD 1, ["junk"]))
      (fun rows _ => (rows, ["junk"])) (fun _ _ _ => 7)
      (fun _ => rfl) (fun _ _ => rfl) rowsLib_read rowsLib_samples).1.2.2.2.2.2.2.2.2.1,
   (C6_reproducible_up_to_clock_and_storage rowsLib Prod.fst
      [⟨pf.SEED_ARG, some "7"⟩, ⟨pf.TIME_ARG, some "1"⟩] 1 2
      (fun rows => (rows.getD 1, ["junk"]))
      (fun rows _ => (rows, ["junk"])) (fun _ _ _ => 7)
      (fun _ => rfl) (fun _ _ => rfl) rowsLib_read rowsLib_samples).1.2.2.2.1,
   ((C6_reproducible_up_to_clock_and_storage rowsLib Prod.fst
      [⟨pf.SEED_ARG, some "7"⟩, ⟨pf.TIME_ARG, some "1"⟩] 1 2
      (fun rows => (rows.getD 1, ["junk"]))
      (fun rows _ => (rows, ["junk"])) (fun _ _ _ => 7)
      (fun _ => rfl) (fun _ _ => rfl) rowsLib_read rowsLib_samples).1.2.2.2.2.2.2.2.2.2.2.2.2.2.1
      (by decide)).1,
   (C6_reproducible_up_to_clock_and_storage rowsLib Prod.fst
      [⟨pf.SEED_ARG, some "7"⟩, ⟨pf.TIME_ARG, some "1"⟩] 1 2
      (fun rows => (rows.getD 1, ["junk"]))
      (fun rows _ => (rows, ["junk"])) (fun _ _ _ => 7)
      (fun _ => rfl) (fun _ _ => rfl) rowsLib_read rowsLib_samples).1.2.2.2.2.2.2.2.2.2.2.2.2.2.2.1,
   (C6_reproducible_up_to_clock_and_storage rowsLib Prod.fst
      [⟨mcmc.SEED_ARG, some "7"⟩] 1 2
      (fun rows => (rows.getD 1, ["junk"]))
      (fun rows _ => (rows, ["junk"])) (fun _ _ _ => 7)
      (fun _ => rfl) (fun _ _ => rfl) rowsLib_read rowsLib_samples).2.2.2.2.2.2.2.2.2.2.2.2.2.2.1.2.2.1⟩

/-! ## The filter and the sampler -/

/-- The sum of weights that are all zero is zero. -/
theorem ParticleFilter.sumWeights_eq_zero {X : Type} (ens : List (ParticleFilter.Particle X))
    (h : ∀ p ∈ ens, p.weight = 0) : ParticleFilter.sumWeights ens = 0 := by
  unfold ParticleFilter.sumWeights
  induction ens with
  | nil => simp
  | cons p ps ih =>
    have hp : p.weight = 0 := h p (List.mem_cons_self p ps)
    have hps : ∀ q ∈ ps, q.weight = 0 := fun q hq => h q (List.mem_cons_of_mem p hq)
    simp [hp, ih hps]

/-- A filter run that has completed a first part goes on from its result. -/
theorem ParticleFilter.filter_append {X : Type} (cfg : ParticleFilter.Config)
    (resampler : List ℚ → List Nat) (logMean : List ℚ → ℚ)
    (pre rest : List ((X → X) × (X → ℚ)))
    (st0 st : List (ParticleFilter.Particle X) × ℚ)
    (h : ParticleFilter.filter cfg resampler logMean pre st0 = .ok st) :
    ParticleFilter.filter cfg resampler logMean (pre ++ rest) st0
      = ParticleFilter.filter cfg resampler logMean rest st := by
  induction pre generalizing st0 with
  | nil =>
    simp only [ParticleFilter.filter, Except.ok.injEq] at h
    simp [h]
  | cons a pre ih =>
    obtain ⟨propagate, lik⟩ := a
    simp only [List.cons_append, ParticleFilter.filter] at h ⊢
    cases hstep : ParticleFilter.filterStep cfg resampler logMean propagate lik st0 with
    | error e => simp [hstep] at h
    | ok st1 =>
      simp only [hstep] at h ⊢
      exact ih st1 h

/-- C8: for every ensemble whose weights are all zero after the weighting step
of an observation time, that pass of the filter raises the degeneracy condition
and yields no ensemble, resampled or not; a filter run that reaches this pass
after any number of completed passes ends with the degeneracy condition; and
the `pf` driver, which has no handler around the filter call, ends there with
that condition instead of returning. -/
theorem C8_degenerate_weights_are_fatal {X : Type} (cfg : ParticleFilter.Config)
    (resampler : List ℚ → List Nat) (logMean : List ℚ → ℚ)
    (propagate : X → X) (lik : X → ℚ)
    (pre rest : List ((X → X) × (X → ℚ)))
    (st0 st : List (ParticleFilter.Particle X) × ℚ) (o : pf.Opts) (elapsed : ℚ)
    (hpre : ParticleFilter.filter cfg resampler logMean pre st0 = .ok st)
    (hzero : ∀ p ∈ ParticleFilter.weight lik
        (st.1.map fun p => { p with state := propagate p.state }), p.weight = 0) :
    ParticleFilter.filterStep cfg resampler logMean propagate lik st
      = .error .degenerate ∧
    (∀ out, ParticleFilter.filterStep cfg resampler logMean propagate lik st ≠ .ok out) ∧
    ParticleFilter.filter cfg resampler logMean (pre ++ (propagate, lik) :: rest) st0
      = .error .degenerate ∧
    pf.finish o elapsed
        (ParticleFilter.filter cfg resampler logMean (pre ++ (propagate, lik) :: rest) st0)
      = .error .degenerate := by
  have hsum := ParticleFilter.sumWeights_eq_zero _ hzero
  have hstep : ParticleFilter.filterStep cfg resampler logMean propagate lik st
      = .error .degenerate := by
    simp only [ParticleFilter.filterStep, hsum, lt_self_iff_false, if_false]
  have hrun : ParticleFilter.filter cfg resampler logMean (pre ++ (propagate, lik) :: rest) st0
      = .error .degenerate := by
    rw [ParticleFilter.filter_append cfg resampler logMean pre _ st0 st hpre]
    simp only [ParticleFilter.filter, hstep]
  refine ⟨hstep, ?_, hrun, ?_⟩
  · intro out h
    rw [hstep] at h
    cases h
  · rw [hrun]
    rfl

/-- C8 at an ensemble: two particles of weights 1 and 2 and an observation of
likelihood zero for both; the pass, the run and the driver end with the
degeneracy condition. -/
theorem C8_degenerate_weights_are_fatal_witness :
    ParticleFilter.filterStep ⟨1 / 2, false⟩ (fun w => List.range w.length) (fun _ => 0)
        (fun x : Nat => x + 1) (fun _ => 0)
        ([⟨0, 1, none⟩, ⟨5, 2, none⟩], 0)
      = .error .degenerate ∧
    pf.finish pf.defaults 0
        (ParticleFilter.filter ⟨1 / 2, false⟩ (fun w => List.range w.length) (fun _ => 0)
          ([] ++ ((fun x : Nat => x + 1), (fun _ => (0 : ℚ))) :: [])
          ([⟨0, 1, none⟩, ⟨5, 2, none⟩], 0))
      = .error .degenerate :=
  have h := C8_degenerate_weights_are_fatal ⟨1 / 2, false⟩ (fun w => List.range w.length)
    (fun _ => 0) (fun x : Nat => x + 1) (fun _ => 0) [] []
    ([⟨0, 1, none⟩, ⟨5, 2, none⟩], 0) ([⟨0, 1, none⟩, ⟨5, 2, none⟩], 0) pf.defaults 0 rfl
    (by simp [ParticleFilter.weight])
  ⟨h.1, h.2.2.2⟩

/-- After any number of steps from a new chain, the step counter is the number
of steps, as many rows have been emitted, and no more proposals have been
accepted than steps taken. -/
theorem ParticleMCMC.counters_foldl {Vec : Type} (logPrior : Vec → ℚ)
    (logJacobian : Vec → Vec → ℚ) (proposals : Nat → ParticleMCMC.Proposal Vec)
    (ns : List Nat) (c : ParticleMCMC.Chain Vec) :
    (ns.foldl (fun c n => ParticleMCMC.step logPrior logJacobian c (proposals n)) c).numSteps
      = c.numSteps + ns.length ∧
    (ns.foldl (fun c n => ParticleMCMC.step logPrior logJacobian c (proposals n)) c).rows.length
      = c.rows.length + ns.length ∧
    (ns.foldl (fun c n => ParticleMCMC.step logPrior logJacobian c (proposals n))
        c).numAccepted
      ≤ c.numAccepted + ns.length := by
  induction ns generalizing c with
  | nil => simp
  | cons n ns ih =>
    obtain ⟨h1, h2, h3⟩ := ih (ParticleMCMC.step logPrior logJacobian c (proposals n))
    simp only [List.foldl_cons, List.length_cons]
    refine ⟨?_, ?_, ?_⟩
    · rw [h1]; unfold ParticleMCMC.step; split <;> simp <;> omega
    · rw [h2]; unfold ParticleMCMC.step; split <;> simp <;> omega
    · refine le_trans h3 ?_
      unfold ParticleMCMC.step; split <;> simp only [] <;> omega

/-- C9: for every step of the chain, the step counter advances by one and one
row is emitted; a rejected proposal leaves the parameter vector, the stored
log-likelihood and the acceptance counter as they were and the row emitted is
the previous draw (the chain's vector and log-likelihood, which is also the row
of the step before); an accepted proposal replaces the vector and the
log-likelihood by the proposal's and emits them.  After `sample` has run `C`
steps from a new chain, the step counter is the number of steps, as many rows
have been emitted, and the accepted count that the `mcmc` driver prints is at
most the step count it prints. -/
theorem C9_chain_step {Vec : Type} (logPrior : Vec → ℚ) (logJacobian : Vec → Vec → ℚ)
    (c : ParticleMCMC.Chain Vec) (p q : ParticleMCMC.Proposal Vec) (theta0 : Vec)
    (loglik0 : ℚ) (C : Int) (proposals : Nat → ParticleMCMC.Proposal Vec) :
    (ParticleMCMC.step logPrior logJacobian c p).numSteps = c.numSteps + 1 ∧
    (ParticleMCMC.step logPrior logJacobian c p).rows.length = c.rows.length + 1 ∧
    (ParticleMCMC.accepts logPrior logJacobian c p = false →
      (ParticleMCMC.step logPrior logJacobian c p).theta = c.theta ∧
      (ParticleMCMC.step logPrior logJacobian c p).loglik = c.loglik ∧
      (ParticleMCMC.step logPrior logJacobian c p).numAccepted = c.numAccepted ∧
      (ParticleMCMC.step logPrior logJacobian c p).rows = c.rows ++ [(c.theta, c.loglik)]) ∧
    (ParticleMCMC.accepts logPrior logJacobian c p = true →
      (ParticleMCMC.step logPrior logJacobian c p).theta = p.theta ∧
      some (ParticleMCMC.step logPrior logJacobian c p).loglik = p.loglik ∧
      (ParticleMCMC.step logPrior logJacobian c p).numAccepted = c.numAccepted + 1 ∧
      (ParticleMCMC.step logPrior logJacobian c p).rows
        = c.rows ++ [(p.theta, (ParticleMCMC.step logPrior logJacobian c p).loglik)]) ∧
    (ParticleMCMC.accepts logPrior logJacobian
        (ParticleMCMC.step logPrior logJacobian c p) q = false →
      (ParticleMCMC.step logPrior logJacobian
          (ParticleMCMC.step logPrior logJacobian c p) q).rows.getLast?
        = (ParticleMCMC.step logPrior logJacobian c p).rows.getLast?) ∧
    (ParticleMCMC.sample logPrior logJacobian (ParticleMCMC.init theta0 loglik0) C
        proposals).numSteps = C.toNat ∧
    (ParticleMCMC.sample logPrior logJacobian (ParticleMCMC.init theta0 loglik0) C
        proposals).rows.length = C.toNat ∧
    (mcmc.wrapUp (ParticleMCMC.sample logPrior logJacobian (ParticleMCMC.init theta0 loglik0) C
        proposals)).1
      ≤ (mcmc.wrapUp (ParticleMCMC.sample logPrior logJacobian
          (ParticleMCMC.init theta0 loglik0) C proposals)).2 := by
  have hlast : ∀ (c : ParticleMCMC.Chain Vec) (p : ParticleMCMC.Proposal Vec),
      (ParticleMCMC.step logPrior logJacobian c p).rows.getLast?
        = some ((ParticleMCMC.step logPrior logJacobian c p).theta,
            (ParticleMCMC.step logPrior logJacobian c p).loglik) := by
    intro c p
    unfold ParticleMCMC.step
    split <;> simp
  have hrej : ∀ (c : ParticleMCMC.Chain Vec) (p : ParticleMCMC.Proposal Vec),
      ParticleMCMC.accepts logPrior logJacobian c p = false →
      ParticleMCMC.step logPrior logJacobian c p
        = { theta := c.theta, loglik := c.loglik, numAccepted := c.numAccepted,
            numSteps := c.numSteps + 1, rows := c.rows ++ [(c.theta, c.loglik)] } := by
    intro c p h
    simp [ParticleMCMC.step, h]
  have hrun := ParticleMCMC.counters_foldl logPrior logJacobian proposals
    (List.range C.toNat) (ParticleMCMC.init theta0 loglik0)
  refine ⟨?_, ?_, ?_, ?_, ?_, ?_, ?_, ?_⟩
  · unfold ParticleMCMC.step; split <;> rfl
  · unfold ParticleMCMC.step; split <;> simp
  · intro h
    rw [hrej c p h]
    exact ⟨rfl, rfl, rfl, rfl⟩
  · intro h
    have hsome : ∃ ll, p.loglik = some ll := by
      cases hp : p.loglik with
      | none => simp [ParticleMCMC.accepts, hp] at h
      | some ll => exact ⟨ll, rfl⟩
    obtain ⟨ll, hll⟩ := hsome
    simp [ParticleMCMC.step, h, hll]
  · intro h
    rw [hrej _ q h, hlast c p]
    simp
  · simpa [ParticleMCMC.sample, ParticleMCMC.init] using hrun.1
  · simpa [ParticleMCMC.sample, ParticleMCMC.init] using hrun.2.1
  · have h1 := hrun.1
    have h3 := hrun.2.2
    simp only [ParticleMCMC.init, List.length_range, zero_add] at h1 h3
    simp only [mcmc.wrapUp, ParticleMCMC.sample, ParticleMCMC.init]
    omega

/-- C9 at a chain: from a new chain at the vector 0 with log-likelihood -3,
a first proposal (vector 1, log-likelihood -1) is accepted and a second whose
inner filter fails is rejected; after the two steps of `sample` the driver
prints "1 of 2", and the second row repeats the first. -/
theorem C9_chain_step_witness :
    mcmc.wrapUp (ParticleMCMC.sample (fun _ : Nat => 0) (fun _ _ => 0)
        (ParticleMCMC.init 0 (-3)) 2
        (fun n => if n = 0 then ⟨1, some (-1), -1⟩ else ⟨2, none, -1⟩)) = (1, 2) ∧
    (ParticleMCMC.sample (fun _ : Nat => 0) (fun _ _ => 0)
        (ParticleMCMC.init 0 (-3)) 2
        (fun n => if n = 0 then ⟨1, some (-1), -1⟩ else ⟨2, none, -1⟩)).rows
      = [(1, -1), (1, -1)] ∧
    (ParticleMCMC.sample (fun _ : Nat => 0) (fun _ _ => 0)
        (ParticleMCMC.init 0 (-3)) 2
        (fun n => if n = 0 then ⟨1, some (-1), -1⟩ else ⟨2, none, -1⟩)).numSteps = 2 := by
  have h := C9_chain_step (fun _ : Nat => 0) (fun _ _ => 0) (ParticleMCMC.init 0 (-3))
    ⟨1, some (-1), -1⟩ ⟨2, none, -1⟩ 0 (-3) 2
    (fun n => if n = 0 then ⟨1, some (-1), -1⟩ else ⟨2, none, -1⟩)
  refine ⟨?_, ?_, h.2.2.2.2.2.1⟩
  · norm_num [mcmc.wrapUp, ParticleMCMC.sample, ParticleMCMC.init, ParticleMCMC.step,
      ParticleMCMC.accepts, List.range, List.range.loop]
  · norm_num [ParticleMCMC.sample, ParticleMCMC.init, ParticleMCMC.step,
      ParticleMCMC.accepts, List.range, List.range.loop]

/-! ## Chain length, adaptation interval and buffer sizes of `mcmc` -/

namespace mcmc

theorem mcmc_step_C (atof : String → ℚ) (o : Opts) (r : GetoptResult) :
    (step atof o r).C = if r.c = shortOpt 'C' then atoi r.arg else o.C := by
  by_cases h : r.c = shortOpt 'C'
  · simp [step, h, shortOpt_T, shortOpt_h, shortOpt_P, shortOpt_L, shortOpt_C, shortOpt_A]
  · cases r with
    | mk c optarg =>
      cases optarg <;> simp only [step, apply_ite Opts.C, h, if_false, ite_self]

theorem mcmc_step_A (atof : String → ℚ) (o : Opts) (r : GetoptResult) :
    (step atof o r).A = if r.c = shortOpt 'A' then atoi r.arg else o.A := by
  by_cases h : r.c = shortOpt 'A'
  · simp [step, h, shortOpt_T, shortOpt_h, shortOpt_P, shortOpt_L, shortOpt_C, shortOpt_A]
  · cases r with
    | mk c optarg =>
      cases optarg <;> simp only [step, apply_ite Opts.A, h, if_false, ite_self]

theorem mcmc_step_T (atof : String → ℚ) (o : Opts) (r : GetoptResult) :
    (step atof o r).T = if r.c = shortOpt 'T' then atof r.arg else o.T := by
  by_cases h : r.c = shortOpt 'T'
  · simp [step, h, shortOpt_T, shortOpt_h, shortOpt_P, shortOpt_L, shortOpt_C, shortOpt_A]
  · cases r with
    | mk c optarg =>
      cases optarg <;> simp only [step, apply_ite Opts.T, h, if_false, ite_self]

/-- After the loop `C` is the value of `-C`, and 100 without one. -/
theorem mcmc_parse_C (atof : String → ℚ) (rs : List GetoptResult) :
    (parse atof rs).C = intOption (shortOpt 'C') 100 rs := by
  rw [parse, foldl_option (step atof) Opts.C (shortOpt 'C')
    (fun r => atoi r.arg) (mcmc_step_C atof), intOption]
  cases lastOpt (shortOpt 'C') rs <;> rfl

/-- After the loop `A` is the value of `-A`, and 1000 without one. -/
theorem mcmc_parse_A (atof : String → ℚ) (rs : List GetoptResult) :
    (parse atof rs).A = intOption (shortOpt 'A') 1000 rs := by
  rw [parse, foldl_option (step atof) Opts.A (shortOpt 'A')
    (fun r => atoi r.arg) (mcmc_step_A atof), intOption]
  cases lastOpt (shortOpt 'A') rs <;> rfl

/-- After the loop `T` is the value of `-T`, and 0.0 without one. -/
theorem mcmc_parse_T (atof : String → ℚ) (rs : List GetoptResult) :
    (parse atof rs).T = realOption atof (shortOpt 'T') 0.0 rs := by
  rw [parse, foldl_option (step atof) Opts.T (shortOpt 'T')
    (fun r => atof r.arg) (mcmc_step_T atof), realOption]
  cases lastOpt (shortOpt 'T') rs <;> rfl

end mcmc

/-- C11: in the `mcmc` driver, for every argument vector, the number of steps
handed to `sample` is the value of `-C` (100 without one), the PMCMC output
buffer is created with that many rows, the adaptation interval handed to
`sample` is the value of `-A` (1000 without one), and the second dimension of
both the PMCMC buffer and the filter buffer is `inObs.countUniqueTimes(T)`, the
number of unique times of the observation file up to the value of `-T`, which
is also the horizon handed to `sample`; both buffers are among the buffers the
run creates. -/
theorem C11_chain_length_and_buffer_sizes {Buf Rng : Type} (lib : Lib Buf Rng)
    (rs : List GetoptResult) :
    (mcmc.main lib rs).sample.C = intOption (shortOpt 'C') 100 rs ∧
    (mcmc.main lib rs).sample.out.kind = .ParticleMCMCNetCDFBuffer ∧
    (mcmc.main lib rs).sample.out.size1 = intOption (shortOpt 'C') 100 rs ∧
    (mcmc.main lib rs).sample.A = intOption (shortOpt 'A') 1000 rs ∧
    (mcmc.main lib rs).sample.T = realOption lib.atof (shortOpt 'T') 0.0 rs ∧
    (mcmc.main lib rs).sample.out.size2
      = lib.countUniqueTimes (mcmc.parse lib.atof rs).OBS_FILE (mcmc.parse lib.atof rs).OBS_NS
          (realOption lib.atof (shortOpt 'T') 0.0 rs) ∧
    (mcmc.main lib rs).sample.filter.outFilter.kind = .ParticleFilterNetCDFBuffer ∧
    (mcmc.main lib rs).sample.filter.outFilter.size2
      = lib.countUniqueTimes (mcmc.parse lib.atof rs).OBS_FILE (mcmc.parse lib.atof rs).OBS_NS
          (realOption lib.atof (shortOpt 'T') 0.0 rs) ∧
    (mcmc.main lib rs).sample.filter.inObs
      = ((mcmc.parse lib.atof rs).OBS_FILE, (mcmc.parse lib.atof rs).OBS_NS) ∧
    Call.openOutput (mcmc.main lib rs).sample.out ∈ (mcmc.main lib rs).calls ∧
    Call.openOutput (mcmc.main lib rs).sample.filter.outFilter ∈ (mcmc.main lib rs).calls := by
  refine ⟨?_, rfl, ?_, ?_, ?_, ?_, rfl, ?_, rfl, ?_, ?_⟩
  · simp only [mcmc.main, mcmc.mcmc_parse_C]
  · simp only [mcmc.main, mcmc.outBuffer, mcmc.mcmc_parse_C]
  · simp only [mcmc.main, mcmc.mcmc_parse_A]
  · simp only [mcmc.main, mcmc.mcmc_parse_T]
  · simp only [mcmc.main, mcmc.outBuffer, mcmc.mcmc_parse_T]
  · simp only [mcmc.main, mcmc.outFilter, mcmc.mcmc_parse_T]
  · simp [mcmc.main, mcmc.calls]
  · simp [mcmc.main, mcmc.calls]

/-- C11 at an argument vector: with `-C 7` and `-A 3` the sampler is asked for
7 steps with the adaptation interval 3, the PMCMC buffer has 7 rows, and both
buffers have the 5 unique observation times of the library instance as their
second dimension. -/
theorem C11_chain_length_and_buffer_sizes_witness :
    (mcmc.main demoLib [⟨shortOpt 'C', some "7"⟩, ⟨shortOpt 'A', some "3"⟩]).sample.C = 7 ∧
    (mcmc.main demoLib [⟨shortOpt 'C', some "7"⟩, ⟨shortOpt 'A', some "3"⟩]).sample.out.size1
      = 7 ∧
    (mcmc.main demoLib [⟨shortOpt 'C', some "7"⟩, ⟨shortOpt 'A', some "3"⟩]).sample.A = 3 ∧
    (mcmc.main demoLib [⟨shortOpt 'C', some "7"⟩, ⟨shortOpt 'A', some "3"⟩]).sample.out.size2
      = 5 ∧
    (mcmc.main demoLib
      [⟨shortOpt 'C', some "7"⟩, ⟨shortOpt 'A', some "3"⟩]).sample.filter.outFilter.size2 = 5 :=
  have h := C11_chain_length_and_buffer_sizes demoLib
    [⟨shortOpt 'C', some "7"⟩, ⟨shortOpt 'A', some "3"⟩]
  ⟨h.1, h.2.2.1, h.2.2.2.1, h.2.2.2.2.2.1, h.2.2.2.2.2.2.2.1⟩

/-! ## The forcing input and the kernel of `kfb` -/

/-- A variable that no case of the `switch` assigns keeps its initial value. -/
theorem foldl_unassigned {σ β : Type} (step : σ → GetoptResult → σ) (f : σ → β)
    (h : ∀ o r, f (step o r) = f o) (rs : List GetoptResult) (o : σ) :
    f (rs.foldl step o) = f o := by
  induction rs generalizing o with
  | nil => rfl
  | cons r rs ih => rw [List.foldl_cons, ih, h]

namespace kfb

theorem kfb_step_FORCE_FILE (atof : String → ℚ) (o : Opts) (r : GetoptResult) :
    (step atof o r).FORCE_FILE = o.FORCE_FILE := by
  simp only [step, apply_ite Opts.FORCE_FILE, ite_self]

/-- After the loop `FORCE_FILE` is still empty, whatever the argument vector. -/
theorem kfb_parse_FORCE_FILE (atof : String → ℚ) (B0 : ℚ) (rs : List GetoptResult) :
    (parse atof B0 rs).FORCE_FILE = "" := by
  rw [parse, foldl_unassigned (step atof) Opts.FORCE_FILE (kfb_step_FORCE_FILE atof)]
  rfl

theorem kfb_step_B (atof : String → ℚ) (o : Opts) (r : GetoptResult) :
    (step atof o r).B = if r.c = shortOpt 'b' then atof r.arg else o.B := by
  by_cases h : r.c = shortOpt 'b'
  · simp [step, h, shortOpt_h, shortOpt_b]
  · simp only [step, apply_ite Opts.B, h, if_false, ite_self]

/-- After the loop `B` is the value of `-b`, and the value the variable happened
to hold without one. -/
theorem kfb_parse_B (atof : String → ℚ) (B0 : ℚ) (rs : List GetoptResult) :
    (parse atof B0 rs).B = realOption atof (shortOpt 'b') B0 rs := by
  rw [parse, foldl_option (step atof) Opts.B (shortOpt 'b')
    (fun r => atof r.arg) (kfb_step_B atof), realOption]
  cases lastOpt (shortOpt 'b') rs <;> rfl

end kfb

/-- The `kfb` driver opens no sparse input buffer. -/
theorem kfb_calls_no_sparse_input {Buf Rng : Type} (lib : Lib Buf Rng) (o : kfb.Opts)
    (h : o.FORCE_FILE = "") (file : String) (ns : Int) (mode : Option StaticHandling) :
    Call.openInput .SparseInputNetCDFBuffer file ns mode ∉ kfb.calls lib o := by
  unfold kfb.calls kfb.outBuffer
  cases h4 : o.OUTPUT <;> cases h5 : o.TIME <;> simp [h]

/-- C12: in the `kfb` driver, for every argument vector, those with a
force-file option of a non-empty name included, `FORCE_FILE` is empty after the
option loop (the `switch` has no case for `FORCE_FILE_ARG`), the forcing input
handed to the smoother is null, and no sparse input buffer is opened. -/
theorem C12_kfb_forcing_is_null {Buf Rng : Type} (lib : Lib Buf Rng) (B0 : ℚ)
    (rs : List GetoptResult) (elapsed : ℚ) :
    (kfb.parse lib.atof B0 rs).FORCE_FILE = "" ∧
    (kfb.main lib B0 rs elapsed).smooth.inForce = none ∧
    (∀ file ns mode, Call.openInput .SparseInputNetCDFBuffer file ns mode
      ∉ (kfb.main lib B0 rs elapsed).calls) := by
  have h := kfb.kfb_parse_FORCE_FILE lib.atof B0 rs
  refine ⟨h, ?_, ?_⟩
  · simp [kfb.main, h]
  · intro file ns mode
    exact kfb_calls_no_sparse_input lib _ h file ns mode

/-- C12 at an argument vector: with the force-file option naming `force.nc`, the
forcing input handed to the smoother is null and the library calls are those of
a run without forcing. -/
theorem C12_kfb_forcing_is_null_witness :
    (kfb.main demoLib 0 [⟨kfb.FORCE_FILE_ARG, some "force.nc"⟩] 0).smooth.inForce = none ∧
    (kfb.main demoLib 0 [⟨kfb.FORCE_FILE_ARG, some "force.nc"⟩] 0).calls
      = (kfb.main demoLib 0 [] 0).calls :=
  ⟨(C12_kfb_forcing_is_null demoLib 0 [⟨kfb.FORCE_FILE_ARG, some "force.nc"⟩] 0).2.1,
   rfl⟩

/-- C14: in the `kfb` driver, for every argument vector, the dimension of the
kernel `FastGaussianKernel K(N, B)` is `ND + NC` when the value of the parameter
flag is zero (or the flag is absent) and `ND + NC + NP` when it is not zero, and
the bandwidth is the value of `-b`: the `atof` of the argument of its last
occurrence. -/
theorem C14_kfb_kernel {Buf Rng : Type} (lib : Lib Buf Rng) (B0 : ℚ)
    (rs : List GetoptResult) (elapsed : ℚ) :
    (intOption kfb.INCLUDE_PARAMETERS_ARG 0 rs = 0 →
      (kfb.main lib B0 rs elapsed).smooth.kernelN
        = lib.getNetSize .D_NODE + lib.getNetSize .C_NODE) ∧
    (intOption kfb.INCLUDE_PARAMETERS_ARG 0 rs ≠ 0 →
      (kfb.main lib B0 rs elapsed).smooth.kernelN
        = lib.getNetSize .D_NODE + lib.getNetSize .C_NODE + lib.getNetSize .P_NODE) ∧
    (∀ r, lastOpt (shortOpt 'b') rs = some r →
      (kfb.main lib B0 rs elapsed).smooth.kernelB = lib.atof r.arg) ∧
    (kfb.main lib B0 rs elapsed).smooth.kernelB
      = realOption lib.atof (shortOpt 'b') B0 rs := by
  have hI := kfb.kfb_parse_INCLUDE_PARAMETERS lib.atof B0 rs
  have hB : (kfb.main lib B0 rs elapsed).smooth.kernelB
      = realOption lib.atof (shortOpt 'b') B0 rs := by
    simp only [kfb.main, kfb.kfb_parse_B]
  refine ⟨?_, ?_, ?_, hB⟩
  · intro hf
    have hb : (kfb.parse lib.atof B0 rs).INCLUDE_PARAMETERS = false := by
      rw [hI]; simp [intToBool, hf]
    simp [kfb.main, kfb.kernelSize, hb]
  · intro hf
    have hb : (kfb.parse lib.atof B0 rs).INCLUDE_PARAMETERS = true := by
      rw [hI]; simpa [intToBool] using hf
    simp [kfb.main, kfb.kernelSize, hb]
  · intro r hr
    rw [hB, realOption, hr]

/-- C14 at two argument vectors: with sizes 1, 2 and 3 of the D-, C- and P-nodes
the kernel has dimension 3 without the flag and 6 with the flag set to 1, and
with `-b 4` its bandwidth is 4. -/
theorem C14_kfb_kernel_witness :
    (kfb.main demoLib 0 [⟨shortOpt 'b', some "4"⟩] 0).smooth.kernelN = 3 ∧
    (kfb.main demoLib 0
      [⟨kfb.INCLUDE_PARAMETERS_ARG, some "1"⟩, ⟨shortOpt 'b', some "4"⟩] 0).smooth.kernelN
      = 6 ∧
    (kfb.main demoLib 0 [⟨shortOpt 'b', some "4"⟩] 0).smooth.kernelB
      = demoLib.atof "4" :=
  ⟨(C14_kfb_kernel demoLib 0 [⟨shortOpt 'b', some "4"⟩] 0).1 (by decide),
   (C14_kfb_kernel demoLib 0
      [⟨kfb.INCLUDE_PARAMETERS_ARG, some "1"⟩, ⟨shortOpt 'b', some "4"⟩] 0).2.1 (by decide),
   (C14_kfb_kernel demoLib 0 [⟨shortOpt 'b', some "4"⟩] 0).2.2.1
      ⟨shortOpt 'b', some "4"⟩ (by decide)⟩

/-! ## The static parameters in `pf` -/

/-- The `pf` driver samples the parameter prior exactly when no init file is
given and the parameters are included. -/
theorem pf_calls_samples_P {Buf Rng : Type} (lib : Lib Buf Rng) (o : pf.Opts) :
    Call.samples .P_NODE ∈ pf.calls lib o ↔ o.INIT_FILE = "" ∧ o.INCLUDE_PARAMETERS = true := by
  unfold pf.calls pf.outBuffer
  by_cases h1 : o.FORCE_FILE = "" <;> by_cases h2 : o.INIT_FILE = "" <;>
    cases h3 : o.INCLUDE_PARAMETERS <;> cases h4 : o.OUTPUT <;> cases h5 : o.TIME <;>
    simp [h1, h2]

/-- Without an init file the `pf` driver reads nothing. -/
theorem pf_calls_no_read {Buf Rng : Type} (lib : Lib Buf Rng) (o : pf.Opts)
    (h : o.INIT_FILE = "") (file : String) (node : NodeType) :
    Call.read file node ∉ pf.calls lib o := by
  unfold pf.calls pf.outBuffer
  by_cases h1 : o.FORCE_FILE = "" <;>
    cases h3 : o.INCLUDE_PARAMETERS <;> cases h4 : o.OUTPUT <;> cases h5 : o.TIME <;>
    simp [h1, h]

/-- C15: in the `pf` driver, for every argument vector, the prior of the static
parameters is sampled exactly when no init file is given and the parameters are
included; then what the filter receives as `theta` is that draw, made after the
draws of the D-node and C-node priors.  When no init file is given and the
parameters are not included (shared mode), the filter receives `theta` as the
one-row `Static` was constructed: the driver has neither sampled nor read
it. -/
theorem C15_pf_static_parameters {Buf Rng : Type} (lib : Lib Buf Rng)
    (rs : List GetoptResult) (elapsed : ℚ) :
    (pf.parse lib.atof rs).INIT_FILE = stringOption pf.INIT_FILE_ARG rs ∧
    (pf.parse lib.atof rs).INCLUDE_PARAMETERS
      = intToBool (intOption pf.INCLUDE_PARAMETERS_ARG 0 rs) ∧
    (Call.samples .P_NODE ∈ (pf.main lib rs elapsed).calls ↔
      (pf.parse lib.atof rs).INIT_FILE = "" ∧
      (pf.parse lib.atof rs).INCLUDE_PARAMETERS = true) ∧
    ((pf.parse lib.atof rs).INIT_FILE = "" →
      (pf.parse lib.atof rs).INCLUDE_PARAMETERS = true →
      (pf.main lib rs elapsed).filter.mode = .STATIC_OWN ∧
      (pf.main lib rs elapsed).filter.theta
        = (lib.samples .P_NODE
            (lib.samples .C_NODE
              (lib.samples .D_NODE (lib.newRandom (pf.parse lib.atof rs).SEED)
                (lib.newState (pf.parse lib.atof rs).P .D_NODE)).2
              (lib.newState (pf.parse lib.atof rs).P .C_NODE)).2
            (lib.newStatic (some (pf.parse lib.atof rs).P))).1) ∧
    ((pf.parse lib.atof rs).INIT_FILE = "" →
      (pf.parse lib.atof rs).INCLUDE_PARAMETERS = false →
      (pf.main lib rs elapsed).filter.mode = .STATIC_SHARED ∧
      (pf.main lib rs elapsed).filter.theta = lib.newStatic (some 1) ∧
      Call.samples .P_NODE ∉ (pf.main lib rs elapsed).calls ∧
      (∀ file node, Call.read file node ∉ (pf.main lib rs elapsed).calls)) := by
  refine ⟨pf.pf_parse_INIT_FILE lib.atof rs, pf.pf_parse_INCLUDE_PARAMETERS lib.atof rs,
    pf_calls_samples_P lib _, ?_, ?_⟩
  · intro h hb
    simp [pf.main, pf.modeOf, pf.thetaAtFilter, pf.thetaRows, h, hb]
  · intro h hb
    refine ⟨by simp [pf.main, pf.modeOf, hb],
      by simp [pf.main, pf.thetaAtFilter, pf.thetaRows, h, hb], ?_, ?_⟩
    · intro hmem
      have := (pf_calls_samples_P lib _).mp hmem
      rw [hb] at this
      exact absurd this.2 (by decide)
    · intro file node
      exact pf_calls_no_read lib _ h file node

/-- C15 at two argument vectors: without any option (shared mode, no init file)
the filter receives `theta` as constructed and the parameter prior is not
sampled; with the parameter flag set to 1 it receives the draw from the
parameter prior. -/
theorem C15_pf_static_parameters_witness :
    (pf.main demoLib [] 0).filter.theta = ["theta"] ∧
    Call.samples .P_NODE ∉ (pf.main demoLib [] 0).calls ∧
    (pf.main demoLib [⟨pf.INCLUDE_PARAMETERS_ARG, some "1"⟩] 0).filter.theta
      = ["theta", "prior sample"] ∧
    Call.samples .P_NODE
      ∈ (pf.main demoLib [⟨pf.INCLUDE_PARAMETERS_ARG, some "1"⟩] 0).calls :=
  ⟨((C15_pf_static_parameters demoLib [] 0).2.2.2.2 (by decide) (by decide)).2.1,
   ((C15_pf_static_parameters demoLib [] 0).2.2.2.2 (by decide) (by decide)).2.2.1,
   ((C15_pf_static_parameters demoLib [⟨pf.INCLUDE_PARAMETERS_ARG, some "1"⟩] 0).2.2.2.1
      (by decide) (by decide)).2,
   (C15_pf_static_parameters demoLib [⟨pf.INCLUDE_PARAMETERS_ARG, some "1"⟩] 0).2.2.1.mpr
      ⟨by decide, by decide⟩⟩

/-! ## The state handed to the simulator in `simulate` and `predict` -/

namespace simulate

theorem simulate_step_SEED (atof : String → ℚ) (o : Opts) (r : GetoptResult) :
    (step atof o r).SEED = if r.c = SEED_ARG then atoi r.arg else o.SEED := by
  by_cases h : r.c = SEED_ARG
  · simp [step, h]
  · simp only [step, apply_ite Opts.SEED, h, if_false, ite_self]

/-- After the loop `SEED` is the value of the seed option, and 0 without one. -/
theorem simulate_parse_SEED (atof : String → ℚ) (rs : List GetoptResult) :
    (parse atof rs).SEED = intOption SEED_ARG 0 rs := by
  rw [parse, foldl_option (step atof) Opts.SEED SEED_ARG
    (fun r => atoi r.arg) (simulate_step_SEED atof), intOption]
  cases lastOpt SEED_ARG rs <;> rfl

end simulate

namespace predict

theorem predict_step_SIMULATE_FILE (atof : String → ℚ) (o : Opts) (r : GetoptResult) :
    (step atof o r).SIMULATE_FILE
      = if r.c = SIMULATE_FILE_ARG then r.arg else o.SIMULATE_FILE := by
  by_cases h : r.c = SIMULATE_FILE_ARG
  · simp [step, h]
  · simp only [step, apply_ite Opts.SIMULATE_FILE, h, if_false, ite_self]

/-- After the loop `SIMULATE_FILE` is the name given last, and empty without
one. -/
theorem predict_parse_SIMULATE_FILE (atof : String → ℚ) (rs : List GetoptResult) :
    (parse atof rs).SIMULATE_FILE = stringOption SIMULATE_FILE_ARG rs := by
  rw [parse, foldl_option (step atof) Opts.SIMULATE_FILE SIMULATE_FILE_ARG
    (fun r => r.arg) (predict_step_SIMULATE_FILE atof), stringOption]
  cases lastOpt SIMULATE_FILE_ARG rs <;> rfl

end predict

/-- In `simulate` the last write of the D-node and of the C-node state is the
sample of the prior. -/
theorem simulate_lastWrite (o : simulate.Opts) :
    lastWrite .D_NODE (simulate.calls o) = some (.samples .D_NODE) ∧
    lastWrite .C_NODE (simulate.calls o) = some (.samples .C_NODE) := by
  unfold simulate.calls simulate.outBuffer lastWrite
  by_cases h1 : o.FORCE_FILE = "" <;> by_cases h2 : o.INIT_FILE = "" <;>
    by_cases h6 : o.OUTPUT_FILE = "" <;>
    cases h3 : o.INCLUDE_PARAMETERS <;> cases h4 : o.OUTPUT <;> cases h5 : o.TIME <;>
    simp [h1, h2, h6, Call.writes, List.filter]

/-- In `predict` the last write of the D-node and of the C-node state is the
read of the simulation file. -/
theorem predict_lastWrite {Buf Rng : Type} (lib : Lib Buf Rng) (o : predict.Opts) :
    lastWrite .D_NODE (predict.calls lib o) = some (.readState o.SIMULATE_FILE .D_NODE) ∧
    lastWrite .C_NODE (predict.calls lib o) = some (.readState o.SIMULATE_FILE .C_NODE) := by
  unfold predict.calls predict.outBuffer lastWrite
  by_cases h1 : o.FORCE_FILE = "" <;> by_cases h2 : o.INIT_FILE = "" <;>
    by_cases h6 : o.OUTPUT_FILE = "" <;>
    cases h3 : o.INCLUDE_PARAMETERS <;> cases h4 : o.OUTPUT <;> cases h5 : o.TIME <;>
    simp [h1, h2, h6, Call.writes, List.filter]

/-- The init-file reads leave the shape of the state as it was allocated. -/
theorem simulate_shape_stateAfterInputs {Buf Rng σ : Type} (lib : Lib Buf Rng)
    (shape : Buf → σ) (o : simulate.Opts) (node : NodeType)
    (hread : ∀ file ns node b, shape (lib.read file ns node b) = shape b) :
    shape (simulate.stateAfterInputs lib o node) = shape (lib.newState o.P node) := by
  unfold simulate.stateAfterInputs
  split_ifs
  · exact hread _ _ _ _
  · rfl

/-- The init-file reads leave the shape of the state as it was allocated. -/
theorem predict_shape_stateAfterInputs {Buf Rng σ : Type} (lib : Lib Buf Rng)
    (shape : Buf → σ) (o : predict.Opts) (node : NodeType)
    (hread : ∀ file ns node b, shape (lib.read file ns node b) = shape b) :
    shape (predict.stateAfterInputs lib o node)
      = shape (lib.newState (lib.size1 o.SIMULATE_FILE) node) := by
  unfold predict.stateAfterInputs
  split_ifs
  · exact hread _ _ _ _
  · rfl

/-- When a read of the init file keeps the shape of its target and a prior
sample depends on its target through the shape alone, the D-node and C-node
state that `simulate` hands to the simulator is the two draws made from the
newly seeded generator into the state as allocated. -/
theorem simulate_state_of_replacing {Buf Rng σ : Type} (lib : Lib Buf Rng)
    (shape : Buf → σ) (rs : List GetoptResult) (elapsed : ℚ)
    (hread : ∀ file ns node b, shape (lib.read file ns node b) = shape b)
    (hS : ∀ node rng b b', shape b = shape b' →
      lib.samples node rng b = lib.samples node rng b') :
    (simulate.main lib rs elapsed).simulate.s.D
      = (lib.samples .D_NODE (lib.newRandom (intOption simulate.SEED_ARG 0 rs))
          (lib.newState (intOption (shortOpt 'P') 0 rs) .D_NODE)).1 ∧
    (simulate.main lib rs elapsed).simulate.s.C
      = (lib.samples .C_NODE
          (lib.samples .D_NODE (lib.newRandom (intOption simulate.SEED_ARG 0 rs))
            (lib.newState (intOption (shortOpt 'P') 0 rs) .D_NODE)).2
          (lib.newState (intOption (shortOpt 'P') 0 rs) .C_NODE)).1 := by
  have hD := hS .D_NODE (lib.newRandom (simulate.parse lib.atof rs).SEED) _ _
    (simulate_shape_stateAfterInputs lib shape (simulate.parse lib.atof rs) .D_NODE hread)
  have hC := fun rng => hS .C_NODE rng _ _
    (simulate_shape_stateAfterInputs lib shape (simulate.parse lib.atof rs) .C_NODE hread)
  simp only [simulate.main, ← simulate.simulate_parse_SEED lib.atof rs,
    ← simulate.simulate_parse_P lib.atof rs]
  constructor
  · rw [hD]
  · rw [hD, hC]

/-- When a read of the init file keeps the shape of its target and a read of
the simulation file depends on its target through the shape alone, the D-node
and C-node state that `predict` hands to the simulator is the last time record
of the simulation file, read into the state as allocated. -/
theorem predict_state_of_replacing {Buf Rng σ : Type} (lib : Lib Buf Rng)
    (shape : Buf → σ) (rs : List GetoptResult) (elapsed : ℚ)
    (hread : ∀ file ns node b, shape (lib.read file ns node b) = shape b)
    (hR : ∀ file node k b b', shape b = shape b' →
      lib.readState file node k b = lib.readState file node k b') :
    (predict.main lib rs elapsed).simulate.s.D
      = lib.readState (stringOption predict.SIMULATE_FILE_ARG rs) .D_NODE
          (lib.size2 (stringOption predict.SIMULATE_FILE_ARG rs) - 1)
          (lib.newState (lib.size1 (stringOption predict.SIMULATE_FILE_ARG rs)) .D_NODE) ∧
    (predict.main lib rs elapsed).simulate.s.C
      = lib.readState (stringOption predict.SIMULATE_FILE_ARG rs) .C_NODE
          (lib.size2 (stringOption predict.SIMULATE_FILE_ARG rs) - 1)
          (lib.newState (lib.size1 (stringOption predict.SIMULATE_FILE_ARG rs)) .C_NODE) := by
  have hD := fun file k => hR file .D_NODE k _ _
    (predict_shape_stateAfterInputs lib shape (predict.parse lib.atof rs) .D_NODE hread)
  have hC := fun file k => hR file .C_NODE k _ _
    (predict_shape_stateAfterInputs lib shape (predict.parse lib.atof rs) .C_NODE hread)
  simp only [predict.main, ← predict.predict_parse_SIMULATE_FILE lib.atof rs]
  exact ⟨hD _ _, hC _ _⟩

/-- Removing results that do not carry the code leaves the last result with the
code as it was. -/
theorem lastOpt_filter (code : Int) (p : GetoptResult → Bool)
    (h : ∀ r, r.c = code → p r = true) (rs : List GetoptResult) :
    lastOpt code (rs.filter p) = lastOpt code rs := by
  induction rs with
  | nil => rfl
  | cons r rs ih =>
    cases hp : p r with
    | true => simp only [List.filter_cons, hp, if_true, lastOpt, ih]
    | false =>
      have hc : r.c ≠ code := fun hc => by rw [h r hc] at hp; cases hp
      have hgoal : lastOpt code (r :: rs) = lastOpt code rs := by
        rw [lastOpt]
        cases lastOpt code rs with
        | none => simp [hc]
        | some r' => rfl
      rw [hgoal, ← ih]
      simp [List.filter_cons, hp]

/-- C13: in the `simulate` and `predict` drivers, for every argument vector,
the last write of the D-node and of the C-node state before the simulator runs
is the sample of the prior (`simulate`) or the read of the last time record of
the simulation file (`predict`), made after any read of the init file.  The
library writes fill the buffer they are given: a read of the init file leaves
the shape of its target as it is (`hread`, and `hread'` for the other init-file
content `read'`), and a prior sample (`hS`) and a read of the simulation file
(`hR`) depend on their target through its shape alone, not through the values
it held.  Then the D-node and C-node state handed to the simulator is what these
writes give on the state as allocated: it is given by the seed, the particle
count and the priors (`simulate`) or by the simulation file (`predict`), it is
the same for any content of the init file, and it is the same with every
init-file option removed from the argument vector. -/
theorem C13_state_independent_of_init_file {Buf Rng σ : Type} (lib : Lib Buf Rng)
    (shape : Buf → σ) (rs : List GetoptResult) (elapsed : ℚ)
    (read' : String → Int → NodeType → Buf → Buf)
    (hread : ∀ file ns node b, shape (lib.read file ns node b) = shape b)
    (hread' : ∀ file ns node b, shape (read' file ns node b) = shape b)
    (hS : ∀ node rng b b', shape b = shape b' →
      lib.samples node rng b = lib.samples node rng b')
    (hR : ∀ file node k b b', shape b = shape b' →
      lib.readState file node k b = lib.readState file node k b') :
    (lastWrite .D_NODE (simulate.main lib rs elapsed).calls = some (.samples .D_NODE) ∧
      lastWrite .C_NODE (simulate.main lib rs elapsed).calls = some (.samples .C_NODE) ∧
      (simulate.main lib rs elapsed).simulate.s.D
        = (lib.samples .D_NODE (lib.newRandom (intOption simulate.SEED_ARG 0 rs))
            (lib.newState (intOption (shortOpt 'P') 0 rs) .D_NODE)).1 ∧
      (simulate.main lib rs elapsed).simulate.s.C
        = (lib.samples .C_NODE
            (lib.samples .D_NODE (lib.newRandom (intOption simulate.SEED_ARG 0 rs))
              (lib.newState (intOption (shortOpt 'P') 0 rs) .D_NODE)).2
            (lib.newState (intOption (shortOpt 'P') 0 rs) .C_NODE)).1 ∧
      (simulate.main { lib with read := read' } rs elapsed).simulate.s
        = (simulate.main lib rs elapsed).simulate.s ∧
      (simulate.main lib (rs.filter fun r => r.c != simulate.INIT_FILE_ARG) elapsed).simulate.s
        = (simulate.main lib rs elapsed).simulate.s) ∧
    (lastWrite .D_NODE (predict.main lib rs elapsed).calls
        = some (.readState (stringOption predict.SIMULATE_FILE_ARG rs) .D_NODE) ∧
      lastWrite .C_NODE (predict.main lib rs elapsed).calls
        = some (.readState (stringOption predict.SIMULATE_FILE_ARG rs) .C_NODE) ∧
      (predict.main lib rs elapsed).simulate.s.D
        = lib.readState (stringOption predict.SIMULATE_FILE_ARG rs) .D_NODE
            (lib.size2 (stringOption predict.SIMULATE_FILE_ARG rs) - 1)
            (lib.newState (lib.size1 (stringOption predict.SIMULATE_FILE_ARG rs)) .D_NODE) ∧
      (predict.main lib rs elapsed).simulate.s.C
        = lib.readState (stringOption predict.SIMULATE_FILE_ARG rs) .C_NODE
            (lib.size2 (stringOption predict.SIMULATE_FILE_ARG rs) - 1)
            (lib.newState (lib.size1 (stringOption predict.SIMULATE_FILE_ARG rs)) .C_NODE) ∧
      (predict.main { lib with read := read' } rs elapsed).simulate.s
        = (predict.main lib rs elapsed).simulate.s ∧
      (predict.main lib (rs.filter fun r => r.c != predict.INIT_FILE_ARG) elapsed).simulate.s
        = (predict.main lib rs elapsed).simulate.s) := by
  have hsim := simulate_state_of_replacing lib shape rs elapsed hread hS
  have hsim' := simulate_state_of_replacing { lib with read := read' } shape rs elapsed
    hread' hS
  have hsim'' := simulate_state_of_replacing lib shape
    (rs.filter fun r => r.c != simulate.INIT_FILE_ARG) elapsed hread hS
  have hpre := predict_state_of_replacing lib shape rs elapsed hread hR
  have hpre' := predict_state_of_replacing { lib with read := read' } shape rs elapsed
    hread' hR
  have hpre'' := predict_state_of_replacing lib shape
    (rs.filter fun r => r.c != predict.INIT_FILE_ARG) elapsed hread hR
  have heq : ∀ {a b : State Buf}, a.D = b.D → a.C = b.C → a = b := by
    intro a b h1 h2
    cases a; cases b
    simp only at h1 h2
    rw [h1, h2]
  have hseed : intOption simulate.SEED_ARG 0
      (rs.filter fun r => r.c != simulate.INIT_FILE_ARG) = intOption simulate.SEED_ARG 0 rs := by
    simp only [intOption]
    rw [lastOpt_filter]
    intro r hr
    simp [hr]
  have hP : intOption (shortOpt 'P') 0
      (rs.filter fun r => r.c != simulate.INIT_FILE_ARG) = intOption (shortOpt 'P') 0 rs := by
    simp only [intOption]
    rw [lastOpt_filter]
    intro r hr
    simp [hr, shortOpt_P]
  have hfile : stringOption predict.SIMULATE_FILE_ARG
      (rs.filter fun r => r.c != predict.INIT_FILE_ARG)
        = stringOption predict.SIMULATE_FILE_ARG rs := by
    simp only [stringOption]
    rw [lastOpt_filter]
    intro r hr
    simp [hr]
  refine ⟨⟨?_, ?_, hsim.1, hsim.2, ?_, ?_⟩, ⟨?_, ?_, hpre.1, hpre.2, ?_, ?_⟩⟩
  · exact (simulate_lastWrite _).1
  · exact (simulate_lastWrite _).2
  · apply heq
    · rw [hsim'.1, hsim.1]
    · rw [hsim'.2, hsim.2]
  · apply heq
    · rw [hsim''.1, hsim.1, hseed, hP]
    · rw [hsim''.2, hsim.2, hseed, hP]
  · have := (predict_lastWrite lib (predict.parse lib.atof rs)).1
    rw [predict.predict_parse_SIMULATE_FILE] at this
    exact this
  · have := (predict_lastWrite lib (predict.parse lib.atof rs)).2
    rw [predict.predict_parse_SIMULATE_FILE] at this
    exact this
  · apply heq
    · rw [hpre'.1, hpre.1]
    · rw [hpre'.2, hpre.2]
  · apply heq
    · rw [hpre''.1, hpre.1, hfile]
    · rw [hpre''.2, hpre.2, hfile]

/-- C13 at two argument vectors, with the library `rowsLib`, whose buffers have
a number of rows that no write changes and whose prior sample makes as many
draws as its target has rows: with four particles and the init file `init.nc`,
the D-node state handed to the simulator is four rows of the prior sample alone
in `simulate` and the four rows of the record of the simulation file `sim.nc`
alone in `predict`; nothing of the init file is left in it, and it is the state
of the run without the init-file option. -/
theorem C13_state_independent_of_init_file_witness :
    (simulate.main rowsLib
      [⟨shortOpt 'P', some "4"⟩, ⟨simulate.INIT_FILE_ARG, some "init.nc"⟩] 0).simulate.s.D
      = (4, ["prior sample"]) ∧
    (predict.main rowsLib
      [⟨predict.INIT_FILE_ARG, some "init.nc"⟩, ⟨predict.SIMULATE_FILE_ARG, some "sim.nc"⟩]
      0).simulate.s.D = (4, ["readState sim.nc"]) ∧
    lastWrite .D_NODE
      (simulate.main rowsLib
        [⟨shortOpt 'P', some "4"⟩, ⟨simulate.INIT_FILE_ARG, some "init.nc"⟩] 0).calls
      = some (.samples .D_NODE) ∧
    (simulate.main rowsLib [⟨shortOpt 'P', some "4"⟩] 0).simulate.s
      = (simulate.main rowsLib
          [⟨shortOpt 'P', some "4"⟩, ⟨simulate.INIT_FILE_ARG, some "init.nc"⟩] 0).simulate.s :=
  ⟨(C13_state_independent_of_init_file rowsLib Prod.fst
      [⟨shortOpt 'P', some "4"⟩, ⟨simulate.INIT_FILE_ARG, some "init.nc"⟩] 0 rowsLib.read
      (fun _ _ _ _ => rfl) (fun _ _ _ _ => rfl) rowsLib_samples rowsLib_readState).1.2.2.1,
   (C13_state_independent_of_init_file rowsLib Prod.fst
      [⟨predict.INIT_FILE_ARG, some "init.nc"⟩, ⟨predict.SIMULATE_FILE_ARG, some "sim.nc"⟩]
      0 rowsLib.read
      (fun _ _ _ _ => rfl) (fun _ _ _ _ => rfl) rowsLib_samples rowsLib_readState).2.2.2.1,
   (C13_state_independent_of_init_file rowsLib Prod.fst
      [⟨shortOpt 'P', some "4"⟩, ⟨simulate.INIT_FILE_ARG, some "init.nc"⟩] 0 rowsLib.read
      (fun _ _ _ _ => rfl) (fun _ _ _ _ => rfl) rowsLib_samples rowsLib_readState).1.1,
   (C13_state_independent_of_init_file rowsLib Prod.fst
      [⟨shortOpt 'P', some "4"⟩, ⟨simulate.INIT_FILE_ARG, some "init.nc"⟩] 0 rowsLib.read
      (fun _ _ _ _ => rfl) (fun _ _ _ _ => rfl) rowsLib_samples rowsLib_readState).1.2.2.2.2.2⟩

end PZ
